import Mathlib

/-!
# Verification of the restaurant-search result pipeline

A shallow embedding of the search result pipeline of the
`ai-food-recommender` repository: cache key derivation and the LRU/TTL
search cache (`src/lib/search-cache.ts`), the result parser
(`src/lib/search-result-parser.ts`), the quality validator
(`restaurant-validator`), the error classifier and fallback generator
(`src/lib/error-handling.ts`), and the per-request orchestration route
(the `POST` handler).

JavaScript numbers are modelled as `ℚ` (the code under study only
performs exact decimal arithmetic), strings as `String`, `undefined`-able
fields as `Option`.  `Math.random()` draws are passed in as explicit
sample parameters (each a rational in `[0,1)`), and `Date.now()` as an
explicit clock argument, so every definition is a pure function of its
inputs.  String operations are defined over the character list `s.data`
so that all definitions evaluate by kernel reduction.
-/

/-! ## JavaScript-semantics helpers -/

/-- JS `Math.round`: round half toward positive infinity. -/
def jsRound (x : ℚ) : ℤ := ⌊x + 1/2⌋

/-- JS `Math.floor`. -/
def jsFloor (x : ℚ) : ℤ := ⌊x⌋

/-- JS `s.toLowerCase()` (ASCII; the code base only lowercases ASCII). -/
def jsToLower (s : String) : String := ⟨s.data.map Char.toLower⟩

/-- Whitespace test backing JS `trim` and `\s`. -/
def isWs (c : Char) : Bool := c.isWhitespace

/-- JS `s.trim()`. -/
def jsTrim (s : String) : String :=
  ⟨((s.data.dropWhile isWs).reverse.dropWhile isWs).reverse⟩

/-- Truthiness of an optional string (`undefined` and `""` are falsy). -/
def truthyS : Option String → Bool
  | none => false
  | some s => !(s == "")

/-- JS `a || b` for an optional string against a default. -/
def orDefaultS (a : Option String) (b : String) : String :=
  match a with
  | some s => if s == "" then b else s
  | none => b

/-- JS `a || b` for an optional number against a default (`0` is falsy). -/
def orDefaultQ (a : Option ℚ) (b : ℚ) : ℚ :=
  match a with
  | some x => if x == 0 then b else x
  | none => b

/-- JS `a || b` for an optional natural against a default (`0` is falsy). -/
def orDefaultN (a : Option ℕ) (b : ℕ) : ℕ :=
  match a with
  | some x => if x == 0 then b else x
  | none => b

/-- Does the character list `p` occur at the start of `s`? -/
def listStartsWith : List Char → List Char → Bool
  | [], _ => true
  | _ :: _, [] => false
  | a :: as, b :: bs => a == b && listStartsWith as bs

/-- Does the character list `p` occur anywhere in `s` (JS `String.includes`)? -/
def listHasSub (p : List Char) : List Char → Bool
  | [] => listStartsWith p []
  | c :: cs => listStartsWith p (c :: cs) || listHasSub p cs

/-- JS `s.includes(p)`. -/
def jsIncludes (s p : String) : Bool := listHasSub p.data s.data

/-- JS `s.replace(/\s/g, '')`: strip all whitespace characters. -/
def jsStripWs (s : String) : String := ⟨s.data.filter (fun c => !(isWs c))⟩

/-- Remove the first occurrence of `p` from character list `s` (JS
`s.replace(p, '')` with a plain-string pattern replaces only the first
occurrence). -/
def listRemoveFirst (p : List Char) : List Char → List Char
  | [] => []
  | c :: cs =>
    if listStartsWith p (c :: cs) then (c :: cs).drop p.length
    else c :: listRemoveFirst p cs

/-- JS `s.replace(p, '')` for a plain-string pattern `p`. -/
def jsRemoveFirst (s p : String) : String := ⟨listRemoveFirst p.data s.data⟩

/-- Value of a list of decimal digit characters. -/
def digitsToNat (cs : List Char) : ℕ :=
  cs.foldl (fun acc c => acc * 10 + (c.toNat - '0'.toNat)) 0

/-- JS `parseFloat`, without the exponent form (never applied to
exponent-form strings in this code base): optional sign, a decimal digit
run, an optional fractional digit run; `none` models `NaN`. -/
def jsParseFloat (s : String) : Option ℚ :=
  let cs := s.data.dropWhile isWs
  let signedTail : ℚ × List Char :=
    match cs with
    | '-' :: rest => (-1, rest)
    | '+' :: rest => (1, rest)
    | rest => (1, rest)
  let sign := signedTail.1
  let body := signedTail.2
  let intDigits := body.takeWhile Char.isDigit
  let rest := body.drop intDigits.length
  let fracDigits :=
    match rest with
    | '.' :: r => r.takeWhile Char.isDigit
    | _ => []
  if intDigits.isEmpty && fracDigits.isEmpty then none
  else
    some (sign * ((digitsToNat intDigits : ℚ) +
      (digitsToNat fracDigits : ℚ) / ((10 : ℚ) ^ fracDigits.length)))

/-- Decimal rendering of `n / 10^scale` with trailing fractional zeros
trimmed, as JS `Number.prototype.toString` prints such values. -/
def decTrimRepr (n : ℤ) (scale : ℕ) : String :=
  let m := n.natAbs
  let base := (10 : ℕ) ^ scale
  let ip := m / base
  let fp := m % base
  let sign := if n < 0 then "-" else ""
  if fp = 0 then sign ++ toString ip
  else
    let fracDigits := (Nat.toDigits 10 (fp + base)).drop 1
    let trimmed := (fracDigits.reverse.dropWhile (· == '0')).reverse
    sign ++ toString ip ++ "." ++ ⟨trimmed⟩

/-- JS `Number.prototype.toString` for the rationals appearing in this
code base: integers print without a decimal point, short decimal
fractions print with trailing zeros trimmed.  (Rationals with no short
decimal expansion never occur in the modelled computations; they fall
back to a fraction rendering.) -/
def jsNumRepr (q : ℚ) : String :=
  if q.den = 1 then toString q.num
  else
    match (List.range 11).find? (fun k => (q * (10 : ℚ) ^ k).den = 1) with
    | some k => decTrimRepr (q * (10 : ℚ) ^ k).num k
    | none => toString q.num ++ "/" ++ toString q.den

/-- JS `x.toFixed(1)` for the nonnegative values it is applied to here:
round to one decimal (ties toward the larger candidate) and keep the
trailing digit. -/
def jsToFixed1 (q : ℚ) : String :=
  let n := (jsRound (q * 10)).natAbs
  toString (n / 10) ++ "." ++ toString (n % 10)

/-! ## Data model (`use-location.ts`, `use-ai-recommendations`) -/

/-- Model of `LocationData` from `src/hooks/use-location.ts`. -/
structure LocationData where
  latitude : ℚ
  longitude : ℚ
  address : Option String := none
  city : Option String := none
  state : Option String := none
  country : Option String := none
  postalCode : Option String := none
deriving DecidableEq, Repr

/-- The canonical `Restaurant` entity from `use-ai-recommendations`. -/
structure Restaurant where
  id : String
  name : String
  cuisine : String
  description : String
  priceLevel : ℚ
  rating : ℚ
  reviewCount : ℚ
  address : String
  phone : Option String := none
  website : Option String := none
  hours : Option String := none
  specialties : List String := []
  dietaryOptions : List String := []
  ambiance : String
  bestFor : List String := []
  estimatedWaitTime : Option String := none
  distance : String
  matchScore : ℚ
  matchReasons : List String := []
  imageUrl : Option String := none
deriving DecidableEq, Repr

/-! ## Search cache (`src/lib/search-cache.ts`) -/

namespace SearchCache

/-- The parameter record accepted by `SearchCache.generateCacheKey`. -/
structure CacheKeyParams where
  query : String
  location : LocationData
  cuisine : Option String := none
  dietaryRestrictions : Option (List String) := none
  priceRange : Option (List ℚ) := none
  radius : Option ℚ := none
deriving DecidableEq, Repr

/-- The lowercased/sorted/comma-joined dietary component of the cache key
(`params.dietaryRestrictions?.map(d => d.toLowerCase()).sort().join(',') || ''`). -/
def dietaryComponent (d : Option (List String)) : String :=
  match d with
  | some l =>
    let s := String.intercalate "," (List.insertionSort (· ≤ ·) (l.map jsToLower))
    if s == "" then "" else s
  | none => ""

/-- The `${priceMin}-${priceMax}` component
(`params.priceRange?.[i] || ''` for each end). -/
def priceComponent (pr : Option (List ℚ)) : String :=
  let entry : ℕ → String := fun i =>
    match pr with
    | some l =>
      match l.get? i with
      | some v => if v == 0 then "" else jsNumRepr v
      | none => ""
    | none => ""
  entry 0 ++ "-" ++ entry 1

/-- The rendered rounded coordinate `Math.round(x * 1000) / 1000`. -/
def coordComponent (x : ℚ) : String := decTrimRepr (jsRound (x * 1000)) 3

/-- Model of `SearchCache.generateCacheKey` (`search-cache.ts:81-114`): normalize
query (lowercase, trim), round coordinates to 3 decimals, lowercase city
and cuisine, lowercase+sort+join the dietary list, and join all parts
with `|`. -/
def generateCacheKey (params : CacheKeyParams) : String :=
  let nQuery := jsTrim (jsToLower params.query)
  let nCity := match params.location.city with
    | some c => jsToLower c
    | none => ""
  let nCuisine := match params.cuisine with
    | some c => jsToLower c
    | none => ""
  let nDietary := dietaryComponent params.dietaryRestrictions
  let nRadius := orDefaultQ params.radius 10
  String.intercalate "|"
    [nQuery,
     coordComponent params.location.latitude ++ "," ++ coordComponent params.location.longitude,
     nCity,
     nCuisine,
     nDietary,
     priceComponent params.priceRange,
     jsNumRepr nRadius]

end SearchCache

/-! ### C1: cache key determinism -/

/-- Two string lists that are permutations of each other sort to the same
list. -/
theorem sort_eq_of_perm {a b : List String} (h : a.Perm b) :
    List.insertionSort (· ≤ ·) a = List.insertionSort (· ≤ ·) b :=
  List.eq_of_perm_of_sorted
    (((List.perm_insertionSort _ a).trans h).trans (List.perm_insertionSort _ b).symm)
    (List.sorted_insertionSort _ a) (List.sorted_insertionSort _ b)

theorem dietaryComponent_eq_of_perm {d e : Option (List String)}
    (h : ((d.getD []).map jsToLower).Perm ((e.getD []).map jsToLower)) :
    SearchCache.dietaryComponent d = SearchCache.dietaryComponent e := by
  cases d with
  | none =>
    cases e with
    | none => rfl
    | some l =>
      simp only [Option.getD] at h
      have hl : l.map jsToLower = [] := h.symm.eq_nil
      simp only [SearchCache.dietaryComponent, hl]
      decide
  | some l =>
    cases e with
    | none =>
      simp only [Option.getD] at h
      have hl : l.map jsToLower = [] := h.eq_nil
      simp only [SearchCache.dietaryComponent, hl]
      decide
    | some m =>
      simp only [Option.getD] at h
      simp only [SearchCache.dietaryComponent, sort_eq_of_perm h]

/-- C1.  Cache key derivation is deterministic and order-independent: two
parameter sets that agree after query lowercasing/trimming, whose
coordinates round to the same 3-decimal values, whose dietary lists are
permutations of each other up to casing, and that agree on the remaining
fields, produce the identical key string. -/
theorem C1_cacheKey_deterministic (p q : SearchCache.CacheKeyParams)
    (hq : jsTrim (jsToLower p.query) = jsTrim (jsToLower q.query))
    (hlat : jsRound (p.location.latitude * 1000) = jsRound (q.location.latitude * 1000))
    (hlng : jsRound (p.location.longitude * 1000) = jsRound (q.location.longitude * 1000))
    (hcity : p.location.city = q.location.city)
    (hcui : p.cuisine = q.cuisine)
    (hdiet : ((p.dietaryRestrictions.getD []).map jsToLower).Perm
      ((q.dietaryRestrictions.getD []).map jsToLower))
    (hpr : p.priceRange = q.priceRange)
    (hrad : p.radius = q.radius) :
    SearchCache.generateCacheKey p = SearchCache.generateCacheKey q := by
  unfold SearchCache.generateCacheKey SearchCache.coordComponent
  rw [hq, hlat, hlng, hcity, hcui, hpr, hrad, dietaryComponent_eq_of_perm hdiet]

-- Witness for C1: a concrete pair of semantically identical parameter
-- sets (query casing/whitespace, sub-precision GPS jitter, dietary order
-- and casing) with the hypotheses discharged by evaluation.
unseal Rat.mul Rat.add Rat.sub Rat.inv Rat.ofScientific in
theorem C1_cacheKey_deterministic_witness :
    SearchCache.generateCacheKey
      { query := "  Sushi Bars ",
        location := { latitude := 35.6762, longitude := 139.6503, city := some "Tokyo" },
        dietaryRestrictions := some ["Vegan", "Halal"] } =
    SearchCache.generateCacheKey
      { query := "sushi bars",
        location := { latitude := 35.6758, longitude := 139.6501, city := some "Tokyo" },
        dietaryRestrictions := some ["halal", "VEGAN"] } :=
  C1_cacheKey_deterministic _ _ (by decide) (by decide) (by decide) (by decide)
    (by decide) (by decide) (by decide) (by decide)

/-! ### The cache store: state and operations -/

namespace SearchCache

/-- Resolved constructor options (`constructor`, `search-cache.ts:63-76`):
`ttl: options.ttl || 30*60*1000`, `maxSize: options.maxSize || 100`,
`version: options.version || '1.0'`. -/
structure ResolvedOptions where
  ttl : ℕ
  maxSize : ℕ
  version : String
deriving DecidableEq, Repr

/-- The metadata argument of `set`. -/
structure SetMetadata where
  location : LocationData
  query : String
  resultCount : ℕ
deriving DecidableEq, Repr

/-- Model of `CacheEntry<T>` from `search-cache.ts:5-18` (metadata flattened). -/
structure Entry (T : Type) where
  key : String
  data : T
  timestamp : ℕ
  expiresAt : ℕ
  metaLocation : LocationData
  metaQuery : String
  metaResultCount : ℕ
  metaVersion : String
  accessCount : ℕ
  lastAccessed : ℕ
deriving DecidableEq, Repr

/-- Internal counters of the cache. -/
structure Stats where
  hits : ℕ
  misses : ℕ
  evictions : ℕ
  totalRequests : ℕ
deriving DecidableEq, Repr

/-- The full mutable state of a `SearchCache` instance: the insertion-ordered
key→entry map (`this.cache`), the recency list (`this.accessOrder`, least
recently used first), the counters, and the resolved options. -/
structure State (T : Type) where
  cache : List (String × Entry T)
  accessOrder : List String
  stats : Stats
  options : ResolvedOptions
deriving DecidableEq, Repr

/-- Fresh cache as built by the constructor. -/
def mkState (T : Type) (ttl maxSize : Option ℕ) (version : Option String) : State T :=
  { cache := []
    accessOrder := []
    stats := ⟨0, 0, 0, 0⟩
    options :=
      { ttl := orDefaultN ttl (30 * 60 * 1000)
        maxSize := orDefaultN maxSize 100
        version := orDefaultS version "1.0" } }

/-- JS `Map.prototype.set`: replace in place when the key exists, append
otherwise. -/
def mapInsert (k : String) (v : Entry T) : List (String × Entry T) → List (String × Entry T)
  | [] => [(k, v)]
  | (k', v') :: rest =>
    if k' == k then (k, v) :: rest else (k', v') :: mapInsert k v rest

/-- JS `Map.prototype.delete`: drop the entry with the given key. -/
def mapRemove (k : String) : List (String × Entry T) → List (String × Entry T)
  | [] => []
  | (k', v') :: rest =>
    if k' == k then rest else (k', v') :: mapRemove k rest

/-- The key list of the map, in insertion order. -/
def keys (c : State T) : List String := c.cache.map Prod.fst

/-- Model of `removeFromAccessOrder` (`search-cache.ts:376-381`): splice out the
first occurrence. -/
def removeFromAccessOrder (k : String) (l : List String) : List String := l.erase k

/-- Model of `updateAccessOrder` (`search-cache.ts:371-374`): move the key to the
most-recently-used (last) position. -/
def updateAccessOrder (k : String) (l : List String) : List String :=
  removeFromAccessOrder k l ++ [k]

/-- Model of `evictLRU` (`search-cache.ts:362-369`): drop the entry named by the
head of the access-order list. -/
def evictLRU (c : State T) : State T :=
  match c.accessOrder with
  | [] => c
  | lruKey :: rest =>
    { c with
      cache := mapRemove lruKey c.cache
      accessOrder := rest
      stats := { c.stats with evictions := c.stats.evictions + 1 } }

/-- Model of `get` (`search-cache.ts:119-143`): count the request; on a missing key
count a miss; on an expired entry (`now > expiresAt`) delete it and count
a miss; otherwise bump the access counters, move the key to the
most-recently-used position, count a hit, and return the payload. -/
def getOp (now : ℕ) (k : String) (c : State T) : Option T × State T :=
  let stats1 := { c.stats with totalRequests := c.stats.totalRequests + 1 }
  match c.cache.lookup k with
  | none =>
    (none, { c with stats := { stats1 with misses := stats1.misses + 1 } })
  | some e =>
    if now > e.expiresAt then
      (none,
       { c with
         cache := mapRemove k c.cache
         accessOrder := removeFromAccessOrder k c.accessOrder
         stats := { stats1 with misses := stats1.misses + 1 } })
    else
      let e' := { e with accessCount := e.accessCount + 1, lastAccessed := now }
      (some e.data,
       { c with
         cache := mapInsert k e' c.cache
         accessOrder := updateAccessOrder k c.accessOrder
         stats := { stats1 with hits := stats1.hits + 1 } })

/-- Model of `set` (`search-cache.ts:148-179`): evict the LRU entry when at
capacity and the key is new, then insert an entry expiring at
`now + ttl` and mark the key most recently used. -/
def setOp (now : ℕ) (k : String) (d : T) (m : SetMetadata) (c : State T) : State T :=
  let c1 :=
    if c.cache.length ≥ c.options.maxSize ∧ (c.cache.lookup k).isNone then evictLRU c else c
  let e : Entry T :=
    { key := k
      data := d
      timestamp := now
      expiresAt := now + c.options.ttl
      metaLocation := m.location
      metaQuery := m.query
      metaResultCount := m.resultCount
      metaVersion := c.options.version
      accessCount := 1
      lastAccessed := now }
  { c1 with
    cache := mapInsert k e c1.cache
    accessOrder := updateAccessOrder k c1.accessOrder }

/-- Model of `delete` (`search-cache.ts:200-206`). -/
def deleteOp (k : String) (c : State T) : State T :=
  if (c.cache.lookup k).isSome then
    { c with
      cache := mapRemove k c.cache
      accessOrder := removeFromAccessOrder k c.accessOrder }
  else c

/-- One public mutating cache operation. -/
inductive CacheOp (T : Type) where
  | get (now : ℕ) (k : String)
  | set (now : ℕ) (k : String) (d : T) (m : SetMetadata)
  | del (k : String)

/-- Apply one operation (discarding `get`'s return value). -/
def applyOp (c : State T) : CacheOp T → State T
  | .get now k => (getOp now k c).2
  | .set now k d m => setOp now k d m c
  | .del k => deleteOp k c

/-- Run a sequence of operations. -/
def runOps (c : State T) (ops : List (CacheOp T)) : State T :=
  ops.foldl applyOp c

end SearchCache

/-! ### Map-level lemmas for the cache proofs -/

namespace SearchCache

theorem lookup_mapInsert_self (k : String) (v : Entry T) (l : List (String × Entry T)) :
    (mapInsert k v l).lookup k = some v := by
  induction l with
  | nil => simp [mapInsert, List.lookup]
  | cons p rest ih =>
    obtain ⟨k', v'⟩ := p
    by_cases h : k' = k
    · simp [mapInsert, h, List.lookup]
    · simp only [mapInsert, beq_iff_eq, h, if_false, List.lookup]
      have : (k == k') = false := by simpa [beq_iff_eq] using Ne.symm h
      simp [this, ih]

theorem lookup_eq_none_iff (k : String) (l : List (String × Entry T)) :
    l.lookup k = none ↔ k ∉ l.map Prod.fst := by
  induction l with
  | nil => simp [List.lookup]
  | cons p rest ih =>
    obtain ⟨k', v'⟩ := p
    by_cases h : k = k'
    · simp [List.lookup, h]
    · have : (k == k') = false := by simpa [beq_iff_eq] using h
      simp [List.lookup, this, ih, h]

theorem keys_mapInsert_of_mem {k : String} {l : List (String × Entry T)} (v : Entry T)
    (h : k ∈ l.map Prod.fst) :
    (mapInsert k v l).map Prod.fst = l.map Prod.fst := by
  induction l with
  | nil => simp at h
  | cons p rest ih =>
    obtain ⟨k', v'⟩ := p
    by_cases hk : k' = k
    · simp [mapInsert, hk]
    · simp only [List.map_cons, List.mem_cons] at h
      rcases h with h | h
      · exact absurd h.symm hk
      · simp [mapInsert, hk, ih h]

theorem keys_mapInsert_of_not_mem {k : String} {l : List (String × Entry T)} (v : Entry T)
    (h : k ∉ l.map Prod.fst) :
    (mapInsert k v l).map Prod.fst = l.map Prod.fst ++ [k] := by
  induction l with
  | nil => simp [mapInsert]
  | cons p rest ih =>
    obtain ⟨k', v'⟩ := p
    simp only [List.map_cons, List.mem_cons, not_or] at h
    have hk : k' ≠ k := fun e => h.1 e.symm
    simp [mapInsert, hk, ih h.2]

theorem keys_mapRemove (k : String) (l : List (String × Entry T)) :
    (mapRemove k l).map Prod.fst = (l.map Prod.fst).erase k := by
  induction l with
  | nil => simp [mapRemove]
  | cons p rest ih =>
    obtain ⟨k', v'⟩ := p
    by_cases hk : k' = k
    · simp [mapRemove, hk, List.erase_cons_head]
    · have : (k' == k) = false := by simpa [beq_iff_eq] using hk
      simp [mapRemove, hk, List.erase_cons, this, ih]

theorem nodup_keys_mapInsert (k : String) (v : Entry T) {l : List (String × Entry T)}
    (h : (l.map Prod.fst).Nodup) :
    ((mapInsert k v l).map Prod.fst).Nodup := by
  by_cases hm : k ∈ l.map Prod.fst
  · rwa [keys_mapInsert_of_mem v hm]
  · rw [keys_mapInsert_of_not_mem v hm]
    rw [List.nodup_append]
    refine ⟨h, List.nodup_singleton k, ?_⟩
    intro x hx hy
    simp only [List.mem_singleton] at hy
    subst hy
    exact hm hx

theorem nodup_keys_mapRemove (k : String) {l : List (String × Entry T)}
    (h : (l.map Prod.fst).Nodup) :
    ((mapRemove k l).map Prod.fst).Nodup := by
  rw [keys_mapRemove]; exact h.erase k

theorem lookup_mapRemove_self (k : String) {l : List (String × Entry T)}
    (h : (l.map Prod.fst).Nodup) :
    (mapRemove k l).lookup k = none := by
  rw [lookup_eq_none_iff, keys_mapRemove]
  exact h.not_mem_erase

end SearchCache

/-! ### C6: TTL expiry semantics -/

namespace SearchCache

theorem evictLRU_options (c : State T) : (evictLRU c).options = c.options := by
  unfold evictLRU; split <;> rfl

theorem evictLRU_nodup_keys {c : State T} (h : (c.cache.map Prod.fst).Nodup) :
    ((evictLRU c).cache.map Prod.fst).Nodup := by
  unfold evictLRU
  split
  · exact h
  · exact nodup_keys_mapRemove _ h

/-- After `set`, the key is present and bound to the freshly built entry. -/
theorem lookup_setOp_self (now : ℕ) (k : String) (d : T) (m : SetMetadata) (c : State T) :
    (setOp now k d m c).cache.lookup k = some
      { key := k
        data := d
        timestamp := now
        expiresAt := now + c.options.ttl
        metaLocation := m.location
        metaQuery := m.query
        metaResultCount := m.resultCount
        metaVersion := c.options.version
        accessCount := 1
        lastAccessed := now } := by
  simp only [setOp]
  exact lookup_mapInsert_self _ _ _

theorem nodup_keys_setOp (now : ℕ) (k : String) (d : T) (m : SetMetadata) {c : State T}
    (h : (c.cache.map Prod.fst).Nodup) :
    ((setOp now k d m c).cache.map Prod.fst).Nodup := by
  simp only [setOp]
  apply nodup_keys_mapInsert
  split
  · exact evictLRU_nodup_keys h
  · exact h

end SearchCache

/-- C6.  TTL expiry semantics: an entry stored at time `t0` with the
cache's TTL `T` is returned by `get` at any time `t ≤ t0 + T`; strictly
after `t0 + T` the same `get` misses (`none`) and deletes the entry, and
a miss is observably what `get` returns on any key that is absent. -/
theorem C6_ttl_expiry {T : Type} (c : SearchCache.State T)
    (hnd : (c.cache.map Prod.fst).Nodup)
    (t0 : ℕ) (k : String) (d : T) (m : SearchCache.SetMetadata) (t : ℕ) :
    (t ≤ t0 + c.options.ttl →
      (SearchCache.getOp t k (SearchCache.setOp t0 k d m c)).1 = some d) ∧
    (t0 + c.options.ttl < t →
      (SearchCache.getOp t k (SearchCache.setOp t0 k d m c)).1 = none ∧
      ((SearchCache.getOp t k (SearchCache.setOp t0 k d m c)).2.cache.lookup k) = none) ∧
    (∀ c2 : SearchCache.State T, c2.cache.lookup k = none →
      (SearchCache.getOp t k c2).1 = none) := by
  refine ⟨?_, ?_, ?_⟩
  · intro ht
    simp only [SearchCache.getOp, SearchCache.lookup_setOp_self]
    rw [if_neg (by omega)]
  · intro ht
    constructor
    · simp only [SearchCache.getOp, SearchCache.lookup_setOp_self]
      rw [if_pos (by omega)]
    · simp only [SearchCache.getOp, SearchCache.lookup_setOp_self]
      rw [if_pos (by omega)]
      exact SearchCache.lookup_mapRemove_self k
        (SearchCache.nodup_keys_setOp t0 k d m hnd)
  · intro c2 h2
    simp only [SearchCache.getOp, h2]

-- Witness for C6: a fresh cache (default TTL 1 800 000 ms), one `set` at
-- t=1000; `get` at t=5000 hits, `get` at t=1 802 000 misses and leaves the
-- key absent.
theorem C6_ttl_expiry_witness :
    (SearchCache.getOp 5000 "k"
      (SearchCache.setOp 1000 "k" 42 ⟨⟨0, 0, none, none, none, none, none⟩, "q", 3⟩
        (SearchCache.mkState ℕ none none none))).1 = some 42 ∧
    (SearchCache.getOp 1802000 "k"
      (SearchCache.setOp 1000 "k" 42 ⟨⟨0, 0, none, none, none, none, none⟩, "q", 3⟩
        (SearchCache.mkState ℕ none none none))).1 = none :=
  ⟨(C6_ttl_expiry _ (by decide) 1000 "k" 42 _ 5000).1 (by decide),
   (((C6_ttl_expiry _ (by decide) 1000 "k" 42 _ 1802000).2.1) (by decide)).1⟩

/-! ### C7: capacity invariant and LRU eviction -/

namespace SearchCache

/-- Well-formedness of a cache state: no duplicate map keys, and the
access-order list is a permutation of the key set. -/
def Inv (c : State T) : Prop :=
  (c.cache.map Prod.fst).Nodup ∧ c.accessOrder.Perm (c.cache.map Prod.fst)

theorem mem_keys_of_lookup {l : List (String × Entry T)} {k : String} {e : Entry T}
    (h : l.lookup k = some e) : k ∈ l.map Prod.fst := by
  by_contra hm
  rw [← lookup_eq_none_iff] at hm
  rw [hm] at h
  cases h

theorem length_mapRemove_le (k : String) (l : List (String × Entry T)) :
    (mapRemove k l).length ≤ l.length := by
  induction l with
  | nil => simp [mapRemove]
  | cons p rest ih =>
    obtain ⟨k', v'⟩ := p
    by_cases hk : k' = k
    · simp [mapRemove, hk]
    · simp only [mapRemove, beq_iff_eq, hk, if_false, List.length_cons]
      omega

theorem length_mapRemove_of_mem {k : String} {l : List (String × Entry T)}
    (h : k ∈ l.map Prod.fst) : (mapRemove k l).length + 1 = l.length := by
  have h1 := congrArg List.length (keys_mapRemove k l)
  rw [List.length_map] at h1
  have h2 := List.length_erase_of_mem h
  rw [List.length_map] at h2
  have h3 : 0 < l.length := by
    cases l with
    | nil => simp at h
    | cons a t => simp
  omega

theorem length_mapInsert_of_mem {k : String} {l : List (String × Entry T)} (v : Entry T)
    (h : k ∈ l.map Prod.fst) : (mapInsert k v l).length = l.length := by
  have h1 := congrArg List.length (keys_mapInsert_of_mem v h)
  rwa [List.length_map, List.length_map] at h1

theorem length_mapInsert_of_not_mem {k : String} {l : List (String × Entry T)} (v : Entry T)
    (h : k ∉ l.map Prod.fst) : (mapInsert k v l).length = l.length + 1 := by
  have h1 := congrArg List.length (keys_mapInsert_of_not_mem v h)
  rw [List.length_map, List.length_append, List.length_map] at h1
  simpa using h1

/-- Moving a present key to the most-recently-used position preserves the
permutation relation with the key set. -/
theorem updateAccessOrder_perm {ao keys : List String} (k : String)
    (hperm : ao.Perm keys) (hmem : k ∈ keys) :
    (updateAccessOrder k ao).Perm keys := by
  have h1 : (ao.erase k ++ [k]).Perm (k :: ao.erase k) := List.perm_append_singleton k _
  have h2 : (k :: ao.erase k).Perm (k :: keys.erase k) := (hperm.erase k).cons k
  have h3 : (k :: keys.erase k).Perm keys := (List.perm_cons_erase hmem).symm
  exact (h1.trans h2).trans h3

/-- Appending a fresh key at the most-recently-used position matches
appending it to the key set. -/
theorem updateAccessOrder_perm_append {ao keys : List String} (k : String)
    (hperm : ao.Perm keys) (hnmem : k ∉ ao) :
    (updateAccessOrder k ao).Perm (keys ++ [k]) := by
  unfold updateAccessOrder removeFromAccessOrder
  rw [List.erase_of_not_mem hnmem]
  exact hperm.append (List.Perm.refl [k])

theorem nodup_append_singleton {l : List String} {k : String}
    (h : l.Nodup) (hk : k ∉ l) : (l ++ [k]).Nodup := by
  rw [List.nodup_append]
  refine ⟨h, List.nodup_singleton k, ?_⟩
  intro x hx hy
  simp only [List.mem_singleton] at hy
  subst hy
  exact hk hx

/-- Model of `get` preserves well-formedness and never grows the cache. -/
theorem getOp_inv {c : State T} (now : ℕ) (k : String) (h : Inv c) :
    Inv (getOp now k c).2 ∧ (getOp now k c).2.cache.length ≤ c.cache.length := by
  obtain ⟨hnd, hperm⟩ := h
  match hl : c.cache.lookup k with
  | none =>
    simp only [getOp, hl]
    exact ⟨⟨hnd, hperm⟩, le_refl _⟩
  | some e =>
    by_cases hexp : now > e.expiresAt
    · simp only [getOp, hl, if_pos hexp]
      refine ⟨⟨nodup_keys_mapRemove k hnd, ?_⟩, length_mapRemove_le k _⟩
      rw [keys_mapRemove]
      exact hperm.erase k
    · have hmem : k ∈ c.cache.map Prod.fst := mem_keys_of_lookup hl
      simp only [getOp, hl, if_neg hexp]
      refine ⟨⟨?_, ?_⟩, ?_⟩
      · rw [keys_mapInsert_of_mem _ hmem]; exact hnd
      · rw [keys_mapInsert_of_mem _ hmem]
        exact updateAccessOrder_perm k hperm hmem
      · rw [length_mapInsert_of_mem _ hmem]

/-- Model of `set` preserves well-formedness and keeps the cache within capacity. -/
theorem setOp_inv {c : State T} (now : ℕ) (k : String) (d : T) (m : SetMetadata)
    (h : Inv c) (hmax : 1 ≤ c.options.maxSize) (hsz : c.cache.length ≤ c.options.maxSize) :
    Inv (setOp now k d m c) ∧ (setOp now k d m c).cache.length ≤ c.options.maxSize := by
  obtain ⟨hnd, hperm⟩ := h
  match hl : c.cache.lookup k with
  | some e =>
    have hmem : k ∈ c.cache.map Prod.fst := mem_keys_of_lookup hl
    have hcond : ¬(c.cache.length ≥ c.options.maxSize ∧ (c.cache.lookup k).isNone = true) := by
      rw [hl]; simp
    simp only [setOp, if_neg hcond]
    refine ⟨⟨?_, ?_⟩, ?_⟩
    · rw [keys_mapInsert_of_mem _ hmem]; exact hnd
    · rw [keys_mapInsert_of_mem _ hmem]
      exact updateAccessOrder_perm k hperm hmem
    · rw [length_mapInsert_of_mem _ hmem]; exact hsz
  | none =>
    have hnmem : k ∉ c.cache.map Prod.fst := (lookup_eq_none_iff k c.cache).mp hl
    have hnao : k ∉ c.accessOrder := fun hk => hnmem (hperm.mem_iff.mp hk)
    by_cases hfull : c.cache.length ≥ c.options.maxSize
    · -- at capacity with a new key: evict, then insert
      have hcond : c.cache.length ≥ c.options.maxSize ∧ (c.cache.lookup k).isNone = true := by
        rw [hl]; exact ⟨hfull, rfl⟩
      have haolen : c.accessOrder.length = c.cache.length := by
        have := hperm.length_eq
        rwa [List.length_map] at this
      match hao : c.accessOrder with
      | [] =>
        rw [hao] at haolen
        simp at haolen
        omega
      | lru :: rest =>
        have hlru : lru ∈ c.cache.map Prod.fst := hperm.mem_iff.mp (by rw [hao]; simp)
        have hrest : rest.Perm ((c.cache.map Prod.fst).erase lru) :=
          (List.cons_perm_iff_perm_erase.mp (hao ▸ hperm)).2
        have hknr : k ∉ (c.cache.map Prod.fst).erase lru :=
          fun hk => hnmem (List.mem_of_mem_erase hk)
        have hknrest : k ∉ rest := fun hk => hknr (hrest.mem_iff.mp hk)
        simp only [setOp, if_pos hcond, evictLRU, hao]
        have hkeys' : (mapRemove lru c.cache).map Prod.fst = (c.cache.map Prod.fst).erase lru :=
          keys_mapRemove lru c.cache
        have hknotin : k ∉ (mapRemove lru c.cache).map Prod.fst := by
          rw [hkeys']; exact hknr
        refine ⟨⟨?_, ?_⟩, ?_⟩
        · rw [keys_mapInsert_of_not_mem _ hknotin, hkeys']
          exact nodup_append_singleton (hnd.erase lru) hknr
        · rw [keys_mapInsert_of_not_mem _ hknotin, hkeys']
          exact updateAccessOrder_perm_append k hrest hknrest
        · rw [length_mapInsert_of_not_mem _ hknotin]
          have := length_mapRemove_of_mem hlru
          omega
    · -- below capacity: plain append
      have hcond : ¬(c.cache.length ≥ c.options.maxSize ∧ (c.cache.lookup k).isNone = true) :=
        fun hc => hfull hc.1
      simp only [setOp, if_neg hcond]
      refine ⟨⟨?_, ?_⟩, ?_⟩
      · rw [keys_mapInsert_of_not_mem _ hnmem]
        exact nodup_append_singleton hnd hnmem
      · rw [keys_mapInsert_of_not_mem _ hnmem]
        exact updateAccessOrder_perm_append k hperm hnao
      · rw [length_mapInsert_of_not_mem _ hnmem]
        omega

/-- Model of `delete` preserves well-formedness and never grows the cache. -/
theorem deleteOp_inv {c : State T} (k : String) (h : Inv c) :
    Inv (deleteOp k c) ∧ (deleteOp k c).cache.length ≤ c.cache.length := by
  obtain ⟨hnd, hperm⟩ := h
  unfold deleteOp
  split
  · refine ⟨⟨nodup_keys_mapRemove k hnd, ?_⟩, length_mapRemove_le k _⟩
    rw [keys_mapRemove]
    exact hperm.erase k
  · exact ⟨⟨hnd, hperm⟩, le_refl _⟩

theorem getOp_options (now : ℕ) (k : String) (c : State T) :
    (getOp now k c).2.options = c.options := by
  unfold getOp
  cases c.cache.lookup k with
  | none => rfl
  | some e => dsimp only; split <;> rfl

theorem setOp_options (now : ℕ) (k : String) (d : T) (m : SetMetadata) (c : State T) :
    (setOp now k d m c).options = c.options := by
  unfold setOp
  dsimp only
  split
  · exact evictLRU_options c
  · rfl

theorem deleteOp_options (k : String) (c : State T) :
    (deleteOp k c).options = c.options := by
  unfold deleteOp; split <;> rfl

theorem applyOp_step {c : State T} (op : CacheOp T)
    (h : Inv c) (hmax : 1 ≤ c.options.maxSize) (hsz : c.cache.length ≤ c.options.maxSize) :
    Inv (applyOp c op) ∧ (applyOp c op).cache.length ≤ (applyOp c op).options.maxSize ∧
      (applyOp c op).options = c.options := by
  cases op with
  | get now k =>
    obtain ⟨h1, h2⟩ := getOp_inv now k h
    refine ⟨h1, ?_, getOp_options now k c⟩
    rw [show (applyOp c (CacheOp.get now k)) = (getOp now k c).2 from rfl, getOp_options]
    omega
  | set now k d m =>
    obtain ⟨h1, h2⟩ := setOp_inv now k d m h hmax hsz
    refine ⟨h1, ?_, setOp_options now k d m c⟩
    rw [show (applyOp c (CacheOp.set now k d m)) = setOp now k d m c from rfl, setOp_options]
    exact h2
  | del k =>
    obtain ⟨h1, h2⟩ := deleteOp_inv k h
    refine ⟨h1, ?_, deleteOp_options k c⟩
    rw [show (applyOp c (CacheOp.del k)) = deleteOp k c from rfl, deleteOp_options]
    omega

/-- Any sequence of operations keeps a well-formed within-capacity cache
well-formed and within capacity. -/
theorem runOps_inv {c : State T} (ops : List (CacheOp T))
    (h : Inv c) (hmax : 1 ≤ c.options.maxSize) (hsz : c.cache.length ≤ c.options.maxSize) :
    Inv (runOps c ops) ∧ (runOps c ops).cache.length ≤ (runOps c ops).options.maxSize ∧
      (runOps c ops).options = c.options := by
  induction ops generalizing c with
  | nil => exact ⟨h, hsz, rfl⟩
  | cons op rest ih =>
    obtain ⟨s1, s2, s3⟩ := applyOp_step op h hmax hsz
    have hmax' : 1 ≤ (applyOp c op).options.maxSize := by rw [s3]; exact hmax
    have hsz' : (applyOp c op).cache.length ≤ (applyOp c op).options.maxSize := s2
    obtain ⟨r1, r2, r3⟩ := ih s1 hmax' hsz'
    exact ⟨r1, r2, r3.trans s3⟩

end SearchCache

/-- C7.  LRU eviction and capacity: (1) from any well-formed
within-capacity state, no sequence of `get`/`set`/`delete` operations
ever pushes the entry count above `maxSize`; (2) a `set` of a fresh key
at capacity evicts exactly the least-recently-accessed key (the head of
the access-order list) and inserts the new one, keeping the count at
`maxSize`; (3) a key just accessed via `get` survives the eviction
triggered by inserting a fresh key (capacity ≥ 2). -/
theorem C7_lru_capacity_and_eviction {T : Type} :
    (∀ (c : SearchCache.State T) (ops : List (SearchCache.CacheOp T)),
      SearchCache.Inv c → 1 ≤ c.options.maxSize →
      c.cache.length ≤ c.options.maxSize →
      (SearchCache.runOps c ops).cache.length ≤ c.options.maxSize) ∧
    (∀ (c : SearchCache.State T) (now : ℕ) (k : String) (d : T)
      (m : SearchCache.SetMetadata) (lru : String) (rest : List String),
      SearchCache.Inv c → c.cache.length = c.options.maxSize →
      1 ≤ c.options.maxSize → c.cache.lookup k = none →
      c.accessOrder = lru :: rest →
      (SearchCache.setOp now k d m c).cache.map Prod.fst =
        ((c.cache.map Prod.fst).erase lru) ++ [k] ∧
      (SearchCache.setOp now k d m c).cache.length = c.options.maxSize) ∧
    (∀ (c : SearchCache.State T) (t1 t2 : ℕ) (kGet kNew : String) (d : T)
      (m : SearchCache.SetMetadata),
      SearchCache.Inv c → c.cache.length = c.options.maxSize →
      2 ≤ c.options.maxSize →
      (SearchCache.getOp t1 kGet c).1.isSome →
      c.cache.lookup kNew = none →
      kNew ∈ (SearchCache.setOp t2 kNew d m (SearchCache.getOp t1 kGet c).2).cache.map Prod.fst ∧
      kGet ∈ (SearchCache.setOp t2 kNew d m (SearchCache.getOp t1 kGet c).2).cache.map Prod.fst) := by
  refine ⟨?_, ?_, ?_⟩
  · -- capacity invariant over operation sequences
    intro c ops h hmax hsz
    obtain ⟨_, r2, r3⟩ := SearchCache.runOps_inv ops h hmax hsz
    rw [r3] at r2
    exact r2
  · -- eviction of exactly the LRU key
    intro c now k d m lru rest h hlen hmax hl hao
    obtain ⟨hnd, hperm⟩ := h
    have hnmem : k ∉ c.cache.map Prod.fst := (SearchCache.lookup_eq_none_iff k c.cache).mp hl
    have hcond : c.cache.length ≥ c.options.maxSize ∧ (c.cache.lookup k).isNone = true := by
      rw [hl]; exact ⟨le_of_eq hlen.symm, rfl⟩
    have hlru : lru ∈ c.cache.map Prod.fst := hperm.mem_iff.mp (by rw [hao]; simp)
    have hkeys' : (SearchCache.mapRemove lru c.cache).map Prod.fst =
        (c.cache.map Prod.fst).erase lru := SearchCache.keys_mapRemove lru c.cache
    have hknotin : k ∉ (SearchCache.mapRemove lru c.cache).map Prod.fst := by
      rw [hkeys']
      exact fun hk => hnmem (List.mem_of_mem_erase hk)
    simp only [SearchCache.setOp, if_pos hcond, SearchCache.evictLRU, hao]
    refine ⟨?_, ?_⟩
    · rw [SearchCache.keys_mapInsert_of_not_mem _ hknotin, hkeys']
    · rw [SearchCache.length_mapInsert_of_not_mem _ hknotin]
      have := SearchCache.length_mapRemove_of_mem hlru
      omega
  · -- a just-accessed key is protected from the next eviction
    intro c t1 t2 kGet kNew d m h hlen hmax hhit hlnew
    obtain ⟨hnd, hperm⟩ := h
    -- unpack the hit
    match hl : c.cache.lookup kGet with
    | none => rw [SearchCache.getOp, hl] at hhit; simp at hhit
    | some e =>
      by_cases hexp : t1 > e.expiresAt
      · rw [SearchCache.getOp, hl] at hhit
        simp only [if_pos hexp] at hhit
        simp at hhit
      · have hmem : kGet ∈ c.cache.map Prod.fst := SearchCache.mem_keys_of_lookup hl
        have hc'cache : (SearchCache.getOp t1 kGet c).2.cache =
            SearchCache.mapInsert kGet
              { e with accessCount := e.accessCount + 1, lastAccessed := t1 } c.cache := by
          simp only [SearchCache.getOp, hl, if_neg hexp]
        have hc'ao : (SearchCache.getOp t1 kGet c).2.accessOrder =
            c.accessOrder.erase kGet ++ [kGet] := by
          simp only [SearchCache.getOp, hl, if_neg hexp]
          rfl
        have hc'opt : (SearchCache.getOp t1 kGet c).2.options = c.options :=
          SearchCache.getOp_options t1 kGet c
        have hc'keys : (SearchCache.getOp t1 kGet c).2.cache.map Prod.fst =
            c.cache.map Prod.fst := by
          rw [hc'cache, SearchCache.keys_mapInsert_of_mem _ hmem]
        have hc'len : (SearchCache.getOp t1 kGet c).2.cache.length = c.cache.length := by
          rw [hc'cache, SearchCache.length_mapInsert_of_mem _ hmem]
        -- the fresh key is still absent after the get
        have hknew' : kNew ∉ (SearchCache.getOp t1 kGet c).2.cache.map Prod.fst := by
          rw [hc'keys]
          exact (SearchCache.lookup_eq_none_iff kNew c.cache).mp hlnew
        have hlnew' : (SearchCache.getOp t1 kGet c).2.cache.lookup kNew = none :=
          (SearchCache.lookup_eq_none_iff kNew _).mpr hknew'
        -- the access-order list of c is duplicate-free and contains kGet
        have hndao : c.accessOrder.Nodup := hperm.nodup_iff.mpr hnd
        have hkgao : kGet ∈ c.accessOrder := hperm.mem_iff.mpr hmem
        -- decompose the erased access order: it is nonempty since capacity ≥ 2
        have haolen : c.accessOrder.length = c.cache.length := by
          have := hperm.length_eq
          rwa [List.length_map] at this
        have herlen : (c.accessOrder.erase kGet).length + 1 = c.accessOrder.length := by
          have h1 := List.length_erase_of_mem hkgao
          have hpos : 0 < c.accessOrder.length := by
            cases hc : c.accessOrder with
            | nil => rw [hc] at hkgao; simp at hkgao
            | cons x xs => simp [hc]
          omega
        obtain ⟨a, t, hat⟩ : ∃ a t, c.accessOrder.erase kGet = a :: t := by
          cases h' : c.accessOrder.erase kGet with
          | nil =>
            exfalso
            rw [h'] at herlen
            simp at herlen
            omega
          | cons a t => exact ⟨a, t, rfl⟩
        have hane : a ≠ kGet := by
          intro hEq
          have : kGet ∈ c.accessOrder.erase kGet := by rw [hat, hEq]; simp
          exact (hndao.not_mem_erase) this
        -- the set at capacity evicts `a`, the head of the post-get access order
        have hcond : (SearchCache.getOp t1 kGet c).2.cache.length ≥
            (SearchCache.getOp t1 kGet c).2.options.maxSize ∧
            ((SearchCache.getOp t1 kGet c).2.cache.lookup kNew).isNone = true := by
          rw [hlnew', hc'len, hc'opt, hlen]
          exact ⟨le_refl _, rfl⟩
        have hev : SearchCache.evictLRU (SearchCache.getOp t1 kGet c).2 =
            { (SearchCache.getOp t1 kGet c).2 with
              cache := SearchCache.mapRemove a (SearchCache.getOp t1 kGet c).2.cache
              accessOrder := t ++ [kGet]
              stats := { (SearchCache.getOp t1 kGet c).2.stats with
                evictions := (SearchCache.getOp t1 kGet c).2.stats.evictions + 1 } } := by
          unfold SearchCache.evictLRU
          rw [hc'ao, hat]
          rfl
        have hkeysEv : (SearchCache.mapRemove a (SearchCache.getOp t1 kGet c).2.cache).map
            Prod.fst = (c.cache.map Prod.fst).erase a := by
          rw [SearchCache.keys_mapRemove, hc'keys]
        have hknEv : kNew ∉ (SearchCache.mapRemove a
            (SearchCache.getOp t1 kGet c).2.cache).map Prod.fst := by
          rw [hkeysEv]
          intro hk
          exact ((SearchCache.lookup_eq_none_iff kNew c.cache).mp hlnew)
            (List.mem_of_mem_erase hk)
        simp only [SearchCache.setOp, if_pos hcond, hev]
        rw [SearchCache.keys_mapInsert_of_not_mem _ hknEv, hkeysEv]
        constructor
        · simp
        · apply List.mem_append_left
          exact List.mem_erase_of_ne hane.symm |>.mpr hmem

/-- Concrete metadata for the C7 witness scenario. -/
def c7demoMeta : SearchCache.SetMetadata :=
  ⟨⟨0, 0, none, none, none, none, none⟩, "q", 0⟩

/-- Concrete capacity-2 cache holding keys `"a"` then `"b"`. -/
def c7demoState : SearchCache.State ℕ :=
  SearchCache.setOp 2 "b" 2 c7demoMeta
    (SearchCache.setOp 1 "a" 1 c7demoMeta
      (SearchCache.mkState ℕ none (some 2) none))

-- Witness for C7 on the concrete capacity-2 cache: the op-sequence bound,
-- the exact eviction of the LRU key "a" on inserting "c", and the survival
-- of "a" when it is re-accessed before "c" is inserted.
theorem C7_lru_capacity_and_eviction_witness :
    (SearchCache.runOps c7demoState
      [SearchCache.CacheOp.get 3 "a",
       SearchCache.CacheOp.set 4 "c" 3 c7demoMeta]).cache.length ≤
      c7demoState.options.maxSize ∧
    ((SearchCache.setOp 4 "c" 3 c7demoMeta c7demoState).cache.map Prod.fst =
      ((c7demoState.cache.map Prod.fst).erase "a") ++ ["c"] ∧
     (SearchCache.setOp 4 "c" 3 c7demoMeta c7demoState).cache.length =
      c7demoState.options.maxSize) ∧
    ("c" ∈ (SearchCache.setOp 4 "c" 3 c7demoMeta
        (SearchCache.getOp 3 "a" c7demoState).2).cache.map Prod.fst ∧
     "a" ∈ (SearchCache.setOp 4 "c" 3 c7demoMeta
        (SearchCache.getOp 3 "a" c7demoState).2).cache.map Prod.fst) :=
  ⟨(C7_lru_capacity_and_eviction (T := ℕ)).1 c7demoState
      [SearchCache.CacheOp.get 3 "a", SearchCache.CacheOp.set 4 "c" 3 c7demoMeta]
      ⟨by decide, by decide⟩ (by decide) (by decide),
   (C7_lru_capacity_and_eviction (T := ℕ)).2.1 c7demoState 4 "c" 3 c7demoMeta "a" ["b"]
      ⟨by decide, by decide⟩ (by decide) (by decide) (by decide) (by decide),
   (C7_lru_capacity_and_eviction (T := ℕ)).2.2 c7demoState 3 4 "a" "c" 3 c7demoMeta
      ⟨by decide, by decide⟩ (by decide) (by decide) (by decide) (by decide)⟩

/-! ## Result parser (`src/lib/search-result-parser.ts`) -/

/-- Model of `RawRestaurantData`: the untrusted provider record.  Every field is
optional here because the provider may omit any of them at runtime; the
numeric fields are rationals since JS does not constrain them to
integers. -/
structure RawRestaurantData where
  name : Option String := none
  cuisine : Option String := none
  description : Option String := none
  priceLevel : Option ℚ := none
  rating : Option ℚ := none
  reviewCount : Option ℚ := none
  address : Option String := none
  phone : Option String := none
  website : Option String := none
  hours : Option String := none
  specialties : Option (List String) := none
  dietaryOptions : Option (List String) := none
  ambiance : Option String := none
  bestFor : Option (List String) := none
  estimatedWaitTime : Option String := none
  coordinates : Option (ℚ × ℚ) := none
  sourceInfo : Option String := none
  distance : Option String := none
deriving DecidableEq, Repr

namespace SearchResultParser

/-- The closed cuisine category list (`CUISINE_TYPES`). -/
def CUISINE_TYPES : List String :=
  ["Italian", "Japanese", "Mexican", "Chinese", "Indian", "Thai", "French",
   "American", "Mediterranean", "Korean", "Vietnamese", "Greek", "Spanish",
   "Lebanese", "Turkish", "Moroccan", "Ethiopian", "German", "Brazilian",
   "Peruvian", "Fusion", "Contemporary", "International", "Seafood",
   "Steakhouse", "BBQ", "Pizza", "Sushi", "Ramen", "Burger", "Cafe"]

/-- The fuzzy synonym table (`cuisineMap` in `normalizeCuisine`). -/
def cuisineMap : List (String × String) :=
  [("indo", "Indian"), ("asian", "Asian Fusion"), ("tex-mex", "Mexican"),
   ("continental", "International"), ("fast food", "American"),
   ("fast-food", "American"), ("diner", "American"), ("pub", "American"),
   ("gastropub", "American"), ("bistro", "French"), ("trattoria", "Italian"),
   ("pizzeria", "Pizza"), ("taqueria", "Mexican"), ("cantina", "Mexican"),
   ("sushi bar", "Sushi"), ("ramen shop", "Ramen"), ("barbecue", "BBQ"),
   ("steakhouse", "Steakhouse"), ("seafood", "Seafood")]

/-- Model of `normalizeCuisine` (`search-result-parser.ts:257-291`): trim+lowercase,
direct match against the closed list, then synonym lookup, else `null`. -/
def normalizeCuisine (cuisine : String) : Option String :=
  let normalized := jsToLower (jsTrim cuisine)
  match CUISINE_TYPES.find? (fun t => jsToLower t == normalized) with
  | some t => some t
  | none => cuisineMap.lookup normalized

/-- Character class `[a-zA-Z0-9\s\-'&.!]` of the name-quality regex. -/
def nameCharOk (c : Char) : Bool :=
  c.isAlpha || c.isDigit || isWs c || c == '-' || c == '\'' || c == '&' ||
    c == '.' || c == '!'

/-- Model of `/^[a-zA-Z0-9\s\-'&.!]+$/.test(name)`. -/
def nameCharsetOk (s : String) : Bool :=
  !s.data.isEmpty && s.data.all nameCharOk

/-- Character class `[\d\s\-\(\)]` of the phone regex. -/
def phoneCharOk (c : Char) : Bool :=
  c.isDigit || isWs c || c == '-' || c == '(' || c == ')'

/-- The `[\d\s\-\(\)]{10,15}` tail of the phone regex. -/
def phoneTail (cs : List Char) : Bool :=
  cs.all phoneCharOk && decide (10 ≤ cs.length) && decide (cs.length ≤ 15)

/-- The phone regex after the optional `[\+]`: an optional `[1-9]` digit
followed by the counted character-class tail (a match exists iff either
decomposition matches). -/
def phoneAfterPlus (cs : List Char) : Bool :=
  phoneTail cs ||
    (match cs with
     | c :: rest => (c.isDigit && !(c == '0')) && phoneTail rest
     | [] => false)

/-- Model of `/^[\+]?[1-9]?[\d\s\-\(\)]{10,15}$/.test(s)`; the source applies it
to the phone with all whitespace removed. -/
def parserPhoneOk (s : String) : Bool :=
  match s.data with
  | '+' :: rest => phoneAfterPlus rest
  | cs => phoneAfterPlus cs

/-- Model of `!data[field] || String(data[field]).trim().length === 0`. -/
def missingRequired (o : Option String) : Bool :=
  !(truthyS o) || (jsTrim (o.getD "") == "")

/-- The result record of the parser's per-record validation. -/
structure ParserValidation where
  isValid : Bool
  errors : List String
deriving DecidableEq, Repr

/-- Required-field errors, in `REQUIRED_FIELDS` order. -/
def requiredErrors (data : RawRestaurantData) : List String :=
  (if missingRequired data.name then ["Missing required field: name"] else []) ++
  (if missingRequired data.cuisine then ["Missing required field: cuisine"] else []) ++
  (if missingRequired data.address then ["Missing required field: address"] else [])

/-- Name-quality errors (`search-result-parser.ts:110-120`). -/
def nameErrors (data : RawRestaurantData) : List String :=
  if truthyS data.name then
    let n := data.name.getD ""
    (if n.length < 2 then ["Restaurant name too short"] else []) ++
    (if n.length > 100 then ["Restaurant name too long"] else []) ++
    (if !(nameCharsetOk n) then ["Restaurant name contains invalid characters"] else [])
  else []

/-- Cuisine normalization errors. -/
def cuisineErrors (data : RawRestaurantData) : List String :=
  if truthyS data.cuisine then
    if (normalizeCuisine (data.cuisine.getD "")).isNone then
      ["Unknown or invalid cuisine type"]
    else []
  else []

/-- Price-level errors (`priceLevel !== undefined` guard). -/
def priceErrors (data : RawRestaurantData) : List String :=
  match data.priceLevel with
  | none => []
  | some p =>
    if ¬(p.den = 1) ∨ p < 1 ∨ p > 5 then
      ["Price level must be an integer between 1 and 5"]
    else []

/-- Rating errors (`typeof` check is vacuous in the model). -/
def ratingErrors (data : RawRestaurantData) : List String :=
  match data.rating with
  | none => []
  | some r =>
    if r < 1 ∨ r > 5 then ["Rating must be a number between 1 and 5"] else []

/-- Review-count errors. -/
def reviewErrors (data : RawRestaurantData) : List String :=
  match data.reviewCount with
  | none => []
  | some rc =>
    if ¬(rc.den = 1) ∨ rc < 0 then
      ["Review count must be a non-negative integer"]
    else []

/-- Address-length errors (`data.address && data.address.length < 10`). -/
def addressErrors (data : RawRestaurantData) : List String :=
  if truthyS data.address ∧ (data.address.getD "").length < 10 then
    ["Address appears to be incomplete"]
  else []

/-- Coordinate errors; `dist` is the haversine great-circle distance of
`calculateDistance` (transcendental, so passed in as a real-valued
oracle).  The search-origin check runs only when both origin coordinates
are truthy (non-zero). -/
def coordErrors (dist : ℚ → ℚ → ℚ → ℚ → ℚ) (data : RawRestaurantData)
    (location : LocationData) : List String :=
  match data.coordinates with
  | none => []
  | some (lat, lng) =>
    (if lat < -90 ∨ lat > 90 ∨ lng < -180 ∨ lng > 180 then
      ["Invalid coordinates"]
    else []) ++
    (if location.latitude ≠ 0 ∧ location.longitude ≠ 0 then
      if dist location.latitude location.longitude lat lng > 50 then
        ["Restaurant location too far from search area"]
      else []
    else [])

/-- Phone-format errors: the regex is applied to the phone with
whitespace removed; a failure is pushed onto `errors`. -/
def phoneErrors (data : RawRestaurantData) : List String :=
  if truthyS data.phone then
    if parserPhoneOk (jsStripWs (data.phone.getD "")) then []
    else ["Invalid phone number format"]
  else []

/-- Website errors: `new URL(...)` throwing is modelled by the `urlOk`
oracle returning `false`. -/
def websiteErrors (urlOk : String → Bool) (data : RawRestaurantData) : List String :=
  if truthyS data.website then
    if urlOk (data.website.getD "") then [] else ["Invalid website URL"]
  else []

/-- All errors recorded by `validateRestaurant`
(`search-result-parser.ts:95-196`), in push order. -/
def validationErrors (dist : ℚ → ℚ → ℚ → ℚ → ℚ) (urlOk : String → Bool)
    (data : RawRestaurantData) (location : LocationData) : List String :=
  requiredErrors data ++ nameErrors data ++ cuisineErrors data ++
  priceErrors data ++ ratingErrors data ++ reviewErrors data ++
  addressErrors data ++ coordErrors dist data location ++
  phoneErrors data ++ websiteErrors urlOk data

/-- Model of `validateRestaurant`: valid iff no error was recorded. -/
def validateRestaurant (dist : ℚ → ℚ → ℚ → ℚ → ℚ) (urlOk : String → Bool)
    (data : RawRestaurantData) (location : LocationData) : ParserValidation :=
  let errors := validationErrors dist urlOk data location
  ⟨errors.isEmpty, errors⟩

end SearchResultParser

namespace SearchResultParser

/-- Model of `list[Math.floor(r * list.length)]` for a `Math.random()` draw `r`. -/
def pickByRandom (l : List String) (r : ℚ) : String :=
  l.getD (jsFloor (r * l.length)).toNat ""

/-- One record's worth of `Math.random()` draws consumed by
`transformToRestaurant`, each in `[0,1)`. -/
structure TransformSamples where
  desc : ℚ := 0
  rating : ℚ := 0
  review : ℚ := 0
  hours : ℚ := 0
  dietary : ℚ := 0
deriving DecidableEq, Repr

/-- Model of `generateDescription`: a cuisine-keyed two-template table with a
default, picked by a random draw. -/
def generateDescription (r : ℚ) (cuisine : String) : String :=
  let descriptions :=
    if cuisine == "Italian" then
      ["Authentic Italian cuisine with traditional recipes",
       "Classic Italian dishes in a warm atmosphere"]
    else if cuisine == "Japanese" then
      ["Fresh sushi and authentic Japanese flavors",
       "Traditional Japanese cuisine with modern touches"]
    else if cuisine == "Mexican" then
      ["Vibrant Mexican flavors with fresh ingredients",
       "Authentic Mexican dishes and festive atmosphere"]
    else if cuisine == "Chinese" then
      ["Traditional Chinese cuisine with authentic flavors",
       "Classic Chinese dishes prepared with care"]
    else if cuisine == "Indian" then
      ["Aromatic Indian spices and traditional recipes",
       "Rich Indian flavors and authentic preparations"]
    else if cuisine == "American" then
      ["Contemporary American cuisine with local ingredients",
       "Classic American dishes with modern presentation"]
    else
      ["Quality cuisine prepared with fresh ingredients",
       "Delicious dishes in a welcoming atmosphere"]
  pickByRandom descriptions r

/-- The cuisine-keyed price defaults of `inferPriceLevel`. -/
def cuisinePriceLevels : List (String × ℚ) :=
  [("French", 4), ("Steakhouse", 4), ("Sushi", 4), ("Pizza", 2),
   ("American", 3), ("Mexican", 2), ("Chinese", 2), ("Indian", 2)]

/-- Model of `inferPriceLevel` (`search-result-parser.ts:425-454`). -/
def inferPriceLevel (name cuisine : String) : ℚ :=
  let nameLower := jsToLower name
  if jsIncludes nameLower "fine" || jsIncludes nameLower "upscale" ||
      jsIncludes nameLower "premium" then 5
  else if jsIncludes nameLower "bistro" || jsIncludes nameLower "brasserie" then 4
  else if jsIncludes nameLower "casual" || jsIncludes nameLower "family" then 2
  else if jsIncludes nameLower "fast" || jsIncludes nameLower "quick" then 1
  else (cuisinePriceLevels.lookup cuisine).getD 3

/-- Model of `generateFallbackRating`: `Math.round((r * 2 + 3.0) * 10) / 10`. -/
def generateFallbackRating (r : ℚ) : ℚ :=
  (jsRound ((r * 2 + 3) * 10) : ℚ) / 10

/-- Model of `generateFallbackReviewCount`: `Math.floor(r * 1000) + 50`. -/
def generateFallbackReviewCount (r : ℚ) : ℚ :=
  (jsFloor (r * 1000) : ℚ) + 50

/-- Model of `generateFallbackHours`: a rotation of four templates. -/
def generateFallbackHours (r : ℚ) : String :=
  pickByRandom
    ["Mon-Thu 11am-10pm, Fri-Sat 11am-11pm, Sun 12pm-9pm",
     "Daily 11am-10pm",
     "Mon-Sat 5pm-11pm, Sun Closed",
     "Daily 12pm-9pm"] r

/-- The cuisine-keyed specialties table of `generateSpecialties`. -/
def specialtiesTable : List (String × List String) :=
  [("Italian", ["Pasta", "Pizza", "Risotto", "Osso Buco"]),
   ("Japanese", ["Sushi", "Ramen", "Tempura", "Miso Soup"]),
   ("Mexican", ["Tacos", "Guacamole", "Enchiladas", "Churros"]),
   ("Chinese", ["Kung Pao Chicken", "Fried Rice", "Dim Sum", "Hot Pot"]),
   ("Indian", ["Butter Chicken", "Biryani", "Naan", "Tandoori"]),
   ("American", ["Burgers", "BBQ Ribs", "Mac and Cheese", "Apple Pie"])]

/-- Model of `generateSpecialties`. -/
def generateSpecialties (cuisine : String) : List String :=
  ((specialtiesTable.lookup cuisine).getD ["House Special", "Chef's Choice"]).take 3

/-- Model of `generateDietaryOptions`: take `Math.floor(r * 2) + 1` of the fixed
option list. -/
def generateDietaryOptions (r : ℚ) : List String :=
  ["Vegetarian", "Vegan", "Gluten-Free", "Dairy-Free"].take
    ((jsFloor (r * 2)).toNat + 1)

/-- Model of `generateAmbiance`. -/
def generateAmbiance (priceLevel : ℚ) : String :=
  if priceLevel ≥ 4 then "Upscale and elegant"
  else if priceLevel ≤ 2 then "Casual and family-friendly"
  else "Modern and trendy"

/-- Model of `generateBestFor`. -/
def generateBestFor (priceLevel : ℚ) : List String :=
  if priceLevel ≥ 4 then ["Date Night", "Special Occasions"]
  else if priceLevel ≤ 2 then ["Family Dinner", "Quick Bite"]
  else ["Casual Dining", "Group Dining"]

/-- Model of `calculateMatchScore` (`search-result-parser.ts:346-373`). -/
def calculateMatchScore (data : RawRestaurantData) (searchQuery : String)
    (cuisine : String) : ℚ :=
  let queryLower := jsToLower searchQuery
  let nameLower := jsToLower (data.name.getD "")
  let cuisineLower := jsToLower cuisine
  let score : ℚ := 50 +
    (if jsIncludes nameLower queryLower then 30 else 0) +
    (if jsIncludes queryLower nameLower then 20 else 0) +
    (if jsIncludes queryLower cuisineLower then 25 else 0) +
    (if jsIncludes cuisineLower queryLower then 15 else 0) +
    (if (data.rating.getD 0) ≠ 0 ∧ (data.rating.getD 0) ≥ 4 then 10 else 0) +
    (if (data.reviewCount.getD 0) ≠ 0 ∧ (data.reviewCount.getD 0) > 100 then 5 else 0) +
    (if truthyS data.phone then 3 else 0) +
    (if truthyS data.website then 3 else 0) +
    (if truthyS data.hours then 2 else 0)
  min 100 (max 0 score)

/-- Model of `generateMatchReasons` (`search-result-parser.ts:378-407`). -/
def generateMatchReasons (data : RawRestaurantData) (searchQuery : String)
    (cuisine : String) : List String :=
  let queryLower := jsToLower searchQuery
  ((if jsIncludes queryLower (jsToLower cuisine) then
      ["Matches " ++ cuisine ++ " cuisine preference"]
    else []) ++
   (if (data.rating.getD 0) ≠ 0 ∧ (data.rating.getD 0) ≥ 4 then
      ["High rating (" ++ jsNumRepr (data.rating.getD 0) ++ "/5)"]
    else []) ++
   (if (data.dietaryOptions.map List.length).getD 0 > 0 then
      ["Offers " ++ String.intercalate ", " ((data.dietaryOptions.getD []).take 2) ++
       " options"]
    else []) ++
   (if truthyS data.distance ∧
        (match jsParseFloat (data.distance.getD "") with
         | some v => decide (v < 2)
         | none => false) = true then
      ["Close to your location"]
    else []) ++
   (if (data.reviewCount.getD 0) ≠ 0 ∧ (data.reviewCount.getD 0) > 500 then
      ["Popular with many reviews"]
    else [])).take 3

/-- Percent-encoding of `encodeURIComponent`, ASCII fragment (the model
never needs to examine the encoded text). -/
def jsEncodeURIComponent (s : String) : String :=
  let hexDigit : ℕ → Char := fun n => "0123456789ABCDEF".data.getD n '0'
  ⟨(s.data.map (fun c =>
    if c.isAlpha || c.isDigit ||
        c == '-' || c == '_' || c == '.' || c == '!' || c == '~' ||
        c == '*' || c == '\'' || c == '(' || c == ')' then [c]
    else ['%', hexDigit (c.toNat / 16 % 16), hexDigit (c.toNat % 16)])).flatten⟩

/-- Model of `transformToRestaurant` (`search-result-parser.ts:201-252`): the
canonical entity with deterministic synthesis of missing optional fields
from the given random draws. -/
def transformToRestaurant (dist : ℚ → ℚ → ℚ → ℚ → ℚ) (samples : TransformSamples)
    (data : RawRestaurantData) (index : ℕ) (nowMs : ℕ)
    (location : LocationData) (searchQuery : String) : Restaurant :=
  let distStr0 := data.distance
  let distStr :=
    if ¬(truthyS distStr0) ∧ data.coordinates.isSome ∧
        location.latitude ≠ 0 ∧ location.longitude ≠ 0 then
      some (jsToFixed1 (dist location.latitude location.longitude
        (data.coordinates.getD (0, 0)).1 (data.coordinates.getD (0, 0)).2) ++ " mi")
    else distStr0
  let normalizedCuisine := orDefaultS (normalizeCuisine (data.cuisine.getD ""))
    (data.cuisine.getD "")
  { id := "parsed-" ++ toString nowMs ++ "-" ++ toString index
    name := jsTrim (data.name.getD "")
    cuisine := normalizedCuisine
    description := orDefaultS data.description
      (generateDescription samples.desc normalizedCuisine)
    priceLevel := orDefaultQ data.priceLevel
      (inferPriceLevel (data.name.getD "") normalizedCuisine)
    rating := orDefaultQ data.rating (generateFallbackRating samples.rating)
    reviewCount := orDefaultQ data.reviewCount
      (generateFallbackReviewCount samples.review)
    address := jsTrim (data.address.getD "")
    phone := data.phone
    website := data.website
    hours := some (orDefaultS data.hours (generateFallbackHours samples.hours))
    specialties := (data.specialties).getD (generateSpecialties normalizedCuisine)
    dietaryOptions := (data.dietaryOptions).getD (generateDietaryOptions samples.dietary)
    ambiance := orDefaultS data.ambiance
      (generateAmbiance (orDefaultQ data.priceLevel 3))
    bestFor := (data.bestFor).getD (generateBestFor (orDefaultQ data.priceLevel 3))
    estimatedWaitTime := data.estimatedWaitTime
    distance := orDefaultS distStr "Unknown"
    matchScore := calculateMatchScore data searchQuery normalizedCuisine
    matchReasons := generateMatchReasons data searchQuery normalizedCuisine
    imageUrl := some ("/placeholder.svg?height=200&width=300&text=" ++
      jsEncodeURIComponent (data.name.getD "")) }

end SearchResultParser

/-- Stable insertion into a sorted list (the model of JS
`Array.prototype.sort`, which is required to be stable). -/
def insertBy (le : α → α → Bool) (a : α) : List α → List α
  | [] => [a]
  | b :: bs => if le a b then a :: b :: bs else b :: insertBy le a bs

/-- Stable sort by a boolean `≤` test, modelling JS `sort` with a
consistent comparator. -/
def sortBy (le : α → α → Bool) : List α → List α
  | [] => []
  | a :: as => insertBy le a (sortBy le as)

namespace SearchResultParser

/-- The per-record completeness contribution inside the parser's
list-level `calculateQualityScore`. -/
def completenessItem (r : Restaurant) : ℚ :=
  (if truthyS r.phone then 0.1 else 0) +
  (if truthyS r.website then 0.1 else 0) +
  (if truthyS r.hours then 0.1 else 0) +
  (if r.rating ≠ 0 ∧ r.rating > 0 then 0.2 else 0) +
  (if r.reviewCount ≠ 0 ∧ r.reviewCount > 0 then 0.1 else 0) +
  (if r.specialties.length > 0 then 0.2 else 0) +
  (if r.dietaryOptions.length > 0 then 0.1 else 0) +
  (if r.distance ≠ "Unknown" then 0.1 else 0)

/-- List-level `calculateQualityScore` (`search-result-parser.ts:296-317`). -/
def calculateQualityScore (valid : List Restaurant) (invalidCount : ℕ) : ℤ :=
  if valid.length = 0 ∧ invalidCount = 0 then 0
  else
    let total : ℚ := (valid.length : ℚ) + (invalidCount : ℚ)
    let validRatio : ℚ := (valid.length : ℚ) / total
    let completenessScore : ℚ :=
      (valid.map completenessItem).sum / max (valid.length : ℚ) 1
    jsRound ((validRatio * 0.7 + completenessScore * 0.3) * 100)

/-- Model of `compareRestaurantQuality` (`search-result-parser.ts:322-341`); a JS
comparator result of `NaN` is treated as `0` by the sort. -/
def compareRestaurantQuality (a b : Restaurant) : ℚ :=
  if a.matchScore ≠ b.matchScore then b.matchScore - a.matchScore
  else
    let distPart : Option ℚ :=
      if a.distance ≠ "Unknown" ∧ b.distance ≠ "Unknown" then
        match jsParseFloat (jsRemoveFirst a.distance " mi"),
          jsParseFloat (jsRemoveFirst b.distance " mi") with
        | some x, some y => if x ≠ y then some (x - y) else none
        | some _, none => some 0
        | none, some _ => some 0
        | none, none => some 0
      else none
    match distPart with
    | some v => v
    | none =>
      if a.rating ≠ 0 ∧ b.rating ≠ 0 ∧ a.rating ≠ b.rating then
        b.rating - a.rating
      else 0

/-- The statistics block of a parse run. -/
structure ParsedStats where
  totalProcessed : ℕ
  validCount : ℕ
  invalidCount : ℕ
  qualityScore : ℤ
deriving DecidableEq, Repr

/-- Model of `ParsedRestaurantResult`: the valid/invalid partition plus stats. -/
structure ParsedRestaurantResult where
  valid : List Restaurant
  invalid : List (RawRestaurantData × List String)
  stats : ParsedStats
deriving DecidableEq, Repr

/-- Model of `parseRestaurants` (`search-result-parser.ts:50-90`): validate each
record, transform the accepted ones, collect rejection reasons for the
rest, compute list statistics, and sort the accepted records by quality. -/
def parseRestaurants (dist : ℚ → ℚ → ℚ → ℚ → ℚ) (urlOk : String → Bool)
    (samples : ℕ → TransformSamples) (nowMs : ℕ)
    (rawData : List RawRestaurantData) (location : LocationData)
    (searchQuery : String) : ParsedRestaurantResult :=
  let processed := rawData.enum.map (fun p =>
    let v := validateRestaurant dist urlOk p.2 location
    if v.isValid then
      Sum.inl (transformToRestaurant dist (samples p.1) p.2 p.1 nowMs location searchQuery)
    else
      Sum.inr (p.2, v.errors))
  let valid := processed.filterMap (fun x =>
    match x with
    | Sum.inl r => some r
    | Sum.inr _ => none)
  let invalid := processed.filterMap (fun x =>
    match x with
    | Sum.inl _ => none
    | Sum.inr bad => some bad)
  let qualityScore := calculateQualityScore valid invalid.length
  { valid := sortBy (fun a b => decide (compareRestaurantQuality a b ≤ 0)) valid
    invalid := invalid
    stats :=
      { totalProcessed := rawData.length
        validCount := valid.length
        invalidCount := invalid.length
        qualityScore := qualityScore } }

end SearchResultParser

/-! ### C3: phone/website format failures in the parser -/

/-- A distance oracle that is never consulted in the concrete scenarios
(the search origin is the falsy coordinate pair `(0,0)`). -/
def dist0 : ℚ → ℚ → ℚ → ℚ → ℚ := fun _ _ _ _ => 0

/-- A URL oracle accepting everything (no website in the scenarios). -/
def urlOk0 : String → Bool := fun _ => true

/-- A concrete raw record that is valid except for its phone number. -/
def c3raw : RawRestaurantData :=
  { name := some "Blue Hill Tavern"
    cuisine := some "Italian"
    address := some "123 Main Street, Springfield"
    phone := some "12" }

/-- An all-zero search origin (falsy coordinates: no distance checks). -/
def loc0 : LocationData := ⟨0, 0, none, none, none, none, none⟩

-- Counterexample to C3 as stated: a record whose phone fails the format
-- check is NOT kept in the valid partition; the parser records an error
-- and rejects it into the invalid partition.
unseal Rat.mul Rat.add Rat.sub Rat.inv Rat.ofScientific in
theorem C3_counterexample :
    (SearchResultParser.validateRestaurant dist0 urlOk0 c3raw loc0).isValid = false ∧
    "Invalid phone number format" ∈
      (SearchResultParser.validateRestaurant dist0 urlOk0 c3raw loc0).errors ∧
    (SearchResultParser.parseRestaurants dist0 urlOk0 (fun _ => {}) 0 [c3raw] loc0
      "tavern").valid = [] ∧
    (SearchResultParser.parseRestaurants dist0 urlOk0 (fun _ => {}) 0 [c3raw] loc0
      "tavern").invalid.length = 1 := by
  decide

/-- C3 (amended).  In the Result Parser a present phone number or
website that fails its format check is recorded as an error and the
record is rejected into the invalid partition (the parser treats it as a
rejection, not a warning): `isValid` is false, the error list carries
the corresponding format message, and `parseRestaurants` places the
record in `invalid`. -/
theorem C3_contact_format_failure_rejects (dist : ℚ → ℚ → ℚ → ℚ → ℚ) (urlOk : String → Bool)
    (data : RawRestaurantData) (loc : LocationData)
    (hfail :
      (truthyS data.phone = true ∧
        SearchResultParser.parserPhoneOk (jsStripWs (data.phone.getD "")) = false) ∨
      (truthyS data.website = true ∧ urlOk (data.website.getD "") = false)) :
    (SearchResultParser.validateRestaurant dist urlOk data loc).isValid = false ∧
    ((truthyS data.phone = true ∧
        SearchResultParser.parserPhoneOk (jsStripWs (data.phone.getD "")) = false) →
      "Invalid phone number format" ∈
        (SearchResultParser.validateRestaurant dist urlOk data loc).errors) ∧
    ((truthyS data.website = true ∧ urlOk (data.website.getD "") = false) →
      "Invalid website URL" ∈
        (SearchResultParser.validateRestaurant dist urlOk data loc).errors) ∧
    ∀ (samples : ℕ → SearchResultParser.TransformSamples) (nowMs : ℕ) (q : String),
      (SearchResultParser.parseRestaurants dist urlOk samples nowMs [data] loc q).valid = [] ∧
      (SearchResultParser.parseRestaurants dist urlOk samples nowMs [data] loc q).invalid =
        [(data, (SearchResultParser.validateRestaurant dist urlOk data loc).errors)] := by
  have hpmem : truthyS data.phone = true →
      SearchResultParser.parserPhoneOk (jsStripWs (data.phone.getD "")) = false →
      "Invalid phone number format" ∈
        SearchResultParser.validationErrors dist urlOk data loc := by
    intro h1 h2
    have hp : SearchResultParser.phoneErrors data = ["Invalid phone number format"] := by
      simp [SearchResultParser.phoneErrors, h1, h2]
    simp [SearchResultParser.validationErrors, hp]
  have hwmem : truthyS data.website = true → urlOk (data.website.getD "") = false →
      "Invalid website URL" ∈
        SearchResultParser.validationErrors dist urlOk data loc := by
    intro h1 h2
    have hw : SearchResultParser.websiteErrors urlOk data = ["Invalid website URL"] := by
      simp [SearchResultParser.websiteErrors, h1, h2]
    simp [SearchResultParser.validationErrors, hw]
  have hne : SearchResultParser.validationErrors dist urlOk data loc ≠ [] := by
    rcases hfail with ⟨h1, h2⟩ | ⟨h1, h2⟩
    · exact List.ne_nil_of_mem (hpmem h1 h2)
    · exact List.ne_nil_of_mem (hwmem h1 h2)
  have hv : (SearchResultParser.validateRestaurant dist urlOk data loc).isValid = false := by
    unfold SearchResultParser.validateRestaurant
    cases h : SearchResultParser.validationErrors dist urlOk data loc with
    | nil => exact absurd h hne
    | cons a l => simp
  refine ⟨hv, fun h => hpmem h.1 h.2, fun h => hwmem h.1 h.2, ?_⟩
  intro samples nowMs q
  constructor
  · simp [SearchResultParser.parseRestaurants, List.enum, hv, sortBy]
  · simp [SearchResultParser.parseRestaurants, List.enum, hv,
      SearchResultParser.validateRestaurant, hne]

/-- A URL oracle rejecting everything, for the website-failure scenario. -/
def urlOkNone : String → Bool := fun _ => false

/-- A concrete raw record whose phone and website both fail their format
checks. -/
def c3rawW : RawRestaurantData :=
  { name := some "Blue Hill Tavern"
    cuisine := some "Italian"
    address := some "123 Main Street, Springfield"
    phone := some "12"
    website := some "not a url" }

-- Witness for C3 (amended) at a concrete record failing both contact
-- format checks (the URL oracle models the failing structural parse).
theorem C3_contact_format_failure_rejects_witness :
    (SearchResultParser.validateRestaurant dist0 urlOkNone c3rawW loc0).isValid = false ∧
    ((truthyS c3rawW.phone = true ∧
        SearchResultParser.parserPhoneOk (jsStripWs (c3rawW.phone.getD "")) = false) →
      "Invalid phone number format" ∈
        (SearchResultParser.validateRestaurant dist0 urlOkNone c3rawW loc0).errors) ∧
    ((truthyS c3rawW.website = true ∧ urlOkNone (c3rawW.website.getD "") = false) →
      "Invalid website URL" ∈
        (SearchResultParser.validateRestaurant dist0 urlOkNone c3rawW loc0).errors) ∧
    ∀ (samples : ℕ → SearchResultParser.TransformSamples) (nowMs : ℕ) (q : String),
      (SearchResultParser.parseRestaurants dist0 urlOkNone samples nowMs [c3rawW] loc0
        q).valid = [] ∧
      (SearchResultParser.parseRestaurants dist0 urlOkNone samples nowMs [c3rawW] loc0
        q).invalid =
        [(c3rawW, (SearchResultParser.validateRestaurant dist0 urlOkNone c3rawW loc0).errors)] :=
  C3_contact_format_failure_rejects dist0 urlOkNone c3rawW loc0
    (Or.inr ⟨by decide, by decide⟩)

/-! ### C2: synthesis of optional fields -/

/-- A raw record carrying only the three required fields. -/
def onlyRequired (n c a : String) : RawRestaurantData :=
  { name := some n, cuisine := some c, address := some a }

theorem lookup_mem_snd {α β : Type} [BEq α] {l : List (α × β)} {k : α} {v : β}
    (h : l.lookup k = some v) : v ∈ l.map Prod.snd := by
  induction l with
  | nil => cases h
  | cons p rest ih =>
    obtain ⟨k', v'⟩ := p
    rw [List.lookup] at h
    cases hk : k == k' with
    | true => rw [hk] at h; cases h; simp
    | false =>
      rw [hk] at h
      simp only [List.map_cons, List.mem_cons]
      exact Or.inr (ih h)

theorem pickByRandom_ne_empty {l : List String} {r : ℚ} (h0 : 0 ≤ r) (h1 : r < 1)
    (hl : l ≠ []) (hne : ∀ x ∈ l, x ≠ "") :
    SearchResultParser.pickByRandom l r ≠ "" := by
  unfold SearchResultParser.pickByRandom jsFloor
  have hlen : 0 < l.length := List.length_pos.mpr hl
  have hlenq : (0 : ℚ) < (l.length : ℚ) := by exact_mod_cast hlen
  have hmul0 : 0 ≤ r * (l.length : ℚ) := mul_nonneg h0 hlenq.le
  have hmul1 : r * (l.length : ℚ) < (l.length : ℚ) := by
    calc r * (l.length : ℚ) < 1 * (l.length : ℚ) :=
          mul_lt_mul_of_pos_right h1 hlenq
      _ = (l.length : ℚ) := one_mul _
  have hfl0 : 0 ≤ ⌊r * (l.length : ℚ)⌋ := Int.floor_nonneg.mpr hmul0
  have hflt : ⌊r * (l.length : ℚ)⌋ < (l.length : ℤ) := by
    rw [Int.floor_lt]
    exact_mod_cast hmul1
  have hnat : (⌊r * (l.length : ℚ)⌋).toNat < l.length := by omega
  rw [List.getD_eq_getElem?_getD, List.getElem?_eq_getElem hnat]
  exact hne _ (List.getElem_mem hnat)

theorem take_ne_nil_of_ne_nil {l : List String} (h : l ≠ []) (n : ℕ) :
    l.take (n + 1) ≠ [] := by
  cases l with
  | nil => exact absurd rfl h
  | cons a as => simp [List.take]

theorem generateDescription_ne_empty {r : ℚ} (h0 : 0 ≤ r) (h1 : r < 1)
    (cuisine : String) : SearchResultParser.generateDescription r cuisine ≠ "" := by
  unfold SearchResultParser.generateDescription
  split_ifs <;> exact pickByRandom_ne_empty h0 h1 (by decide) (by decide)

theorem generateFallbackHours_ne_empty {r : ℚ} (h0 : 0 ≤ r) (h1 : r < 1) :
    SearchResultParser.generateFallbackHours r ≠ "" := by
  unfold SearchResultParser.generateFallbackHours
  exact pickByRandom_ne_empty h0 h1 (by decide) (by decide)

theorem inferPriceLevel_bounds (name cuisine : String) :
    1 ≤ SearchResultParser.inferPriceLevel name cuisine ∧
    SearchResultParser.inferPriceLevel name cuisine ≤ 5 := by
  simp only [SearchResultParser.inferPriceLevel]
  split_ifs <;> try norm_num
  match h : SearchResultParser.cuisinePriceLevels.lookup cuisine with
  | none => norm_num
  | some v =>
    have hv := lookup_mem_snd h
    have hall : ∀ x ∈ SearchResultParser.cuisinePriceLevels.map Prod.snd,
        1 ≤ x ∧ x ≤ 5 := by
      intro x hx
      simp only [SearchResultParser.cuisinePriceLevels, List.map_cons, List.map_nil,
        List.mem_cons, List.not_mem_nil, or_false] at hx
      rcases hx with h' | h' | h' | h' | h' | h' | h' | h' <;> subst h' <;> norm_num
    simpa using hall v hv

theorem generateFallbackRating_bounds {r : ℚ} (h0 : 0 ≤ r) (h1 : r < 1) :
    3 ≤ SearchResultParser.generateFallbackRating r ∧
    SearchResultParser.generateFallbackRating r ≤ 5 := by
  unfold SearchResultParser.generateFallbackRating jsRound
  have hx0 : (30 : ℚ) ≤ (r * 2 + 3) * 10 := by nlinarith
  have hx1 : (r * 2 + 3) * 10 < 50 := by nlinarith
  have hlo : (30 : ℤ) ≤ ⌊(r * 2 + 3) * 10 + 1/2⌋ := by
    rw [Int.le_floor]
    push_cast
    linarith
  have hhi : ⌊(r * 2 + 3) * 10 + 1/2⌋ < (51 : ℤ) := by
    rw [Int.floor_lt]
    push_cast
    linarith
  constructor
  · rw [le_div_iff₀ (by norm_num : (0:ℚ) < 10)]
    calc (3 : ℚ) * 10 = ((30 : ℤ) : ℚ) := by norm_num
      _ ≤ (⌊(r * 2 + 3) * 10 + 1/2⌋ : ℚ) := by exact_mod_cast hlo
  · rw [div_le_iff₀ (by norm_num : (0:ℚ) < 10)]
    calc (⌊(r * 2 + 3) * 10 + 1/2⌋ : ℚ) ≤ ((50 : ℤ) : ℚ) := by
          exact_mod_cast (by omega : ⌊(r * 2 + 3) * 10 + 1/2⌋ ≤ (50 : ℤ))
      _ = 5 * 10 := by norm_num

theorem generateFallbackReviewCount_lb {r : ℚ} (h0 : 0 ≤ r) :
    50 ≤ SearchResultParser.generateFallbackReviewCount r := by
  unfold SearchResultParser.generateFallbackReviewCount jsFloor
  have : (0 : ℤ) ≤ ⌊r * 1000⌋ := Int.floor_nonneg.mpr (by positivity)
  have : (0 : ℚ) ≤ (⌊r * 1000⌋ : ℚ) := by exact_mod_cast this
  linarith

theorem generateSpecialties_ne_nil (cuisine : String) :
    SearchResultParser.generateSpecialties cuisine ≠ [] := by
  unfold SearchResultParser.generateSpecialties
  match h : SearchResultParser.specialtiesTable.lookup cuisine with
  | none => decide
  | some v =>
    have hv := lookup_mem_snd h
    have hall : ∀ x ∈ SearchResultParser.specialtiesTable.map Prod.snd, x ≠ [] := by decide
    have hne : v ≠ [] := hall v hv
    simp only [Option.getD]
    cases v with
    | nil => exact absurd rfl hne
    | cons a as => exact take_ne_nil_of_ne_nil (by simp) 2

theorem generateDietaryOptions_ne_nil (r : ℚ) :
    SearchResultParser.generateDietaryOptions r ≠ [] := by
  unfold SearchResultParser.generateDietaryOptions
  exact take_ne_nil_of_ne_nil (by decide) _

/-- The synthesis outcome of `transformToRestaurant` on a record with
only required fields: synthesized fields are populated (description,
price level in 1–5, rating in 3–5, at least 50 reviews, non-empty hours,
specialties, dietary options, ambiance and best-for), `distance` is the
`"Unknown"` sentinel, and `phone`, `website`, `estimatedWaitTime` stay
absent. -/
def SynthesisOutcome (r : Restaurant) : Prop :=
  r.description ≠ "" ∧
  (1 ≤ r.priceLevel ∧ r.priceLevel ≤ 5) ∧
  (3 ≤ r.rating ∧ r.rating ≤ 5) ∧
  50 ≤ r.reviewCount ∧
  truthyS r.hours = true ∧
  r.specialties ≠ [] ∧
  r.dietaryOptions ≠ [] ∧
  r.ambiance ≠ "" ∧
  r.bestFor ≠ [] ∧
  r.distance = "Unknown" ∧
  r.phone = none ∧ r.website = none ∧ r.estimatedWaitTime = none

-- Counterexample to C2 as stated: a record with only the required fields
-- passes validation, yet the transformed Restaurant has `phone`,
-- `website` and `estimatedWaitTime` absent (`none`) — they are never
-- synthesized, contradicting "every optional field ... populated".
unseal Rat.mul Rat.add Rat.sub Rat.inv Rat.ofScientific in
theorem C2_counterexample :
    (SearchResultParser.validateRestaurant dist0 urlOk0
      (onlyRequired "Pasta Corner" "Italian" "123 Main Street, Rome") loc0).isValid = true ∧
    (SearchResultParser.transformToRestaurant dist0 {}
      (onlyRequired "Pasta Corner" "Italian" "123 Main Street, Rome") 0 0 loc0
      "pasta").phone = none ∧
    (SearchResultParser.transformToRestaurant dist0 {}
      (onlyRequired "Pasta Corner" "Italian" "123 Main Street, Rome") 0 0 loc0
      "pasta").website = none ∧
    (SearchResultParser.transformToRestaurant dist0 {}
      (onlyRequired "Pasta Corner" "Italian" "123 Main Street, Rome") 0 0 loc0
      "pasta").estimatedWaitTime = none := by
  decide

/-- C2 (amended).  For a record with only the required fields, the parser
synthesizes every optional field except contact data: description, price
level (1–5), rating (3–5), review count (≥ 50), hours, specialties,
dietary options, ambiance and best-for are all populated and `distance`
is the `"Unknown"` sentinel, while `phone`, `website` and the wait time
remain absent. -/
theorem C2_synthesis_completeness (dist : ℚ → ℚ → ℚ → ℚ → ℚ) (urlOk : String → Bool)
    (s : SearchResultParser.TransformSamples) (n c a : String)
    (loc : LocationData) (q : String) (idx nowMs : ℕ)
    (_hacc : (SearchResultParser.validateRestaurant dist urlOk
      (onlyRequired n c a) loc).isValid = true)
    (hd0 : 0 ≤ s.desc) (hd1 : s.desc < 1)
    (hr0 : 0 ≤ s.rating) (hr1 : s.rating < 1)
    (hv0 : 0 ≤ s.review)
    (hh0 : 0 ≤ s.hours) (hh1 : s.hours < 1) :
    SynthesisOutcome
      (SearchResultParser.transformToRestaurant dist s (onlyRequired n c a)
        idx nowMs loc q) := by
  unfold SynthesisOutcome
  simp only [SearchResultParser.transformToRestaurant, onlyRequired, orDefaultS,
    orDefaultQ, truthyS, Option.getD, Option.isSome]
  refine ⟨?_, ?_, ?_, ?_, ?_, ?_, ?_, ?_, ?_, ?_, trivial, trivial, trivial⟩
  · exact generateDescription_ne_empty hd0 hd1 _
  · exact inferPriceLevel_bounds n _
  · exact generateFallbackRating_bounds hr0 hr1
  · exact generateFallbackReviewCount_lb hv0
  · simp [generateFallbackHours_ne_empty hh0 hh1]
  · exact generateSpecialties_ne_nil _
  · exact generateDietaryOptions_ne_nil _
  · have h3 : SearchResultParser.generateAmbiance 3 = "Modern and trendy" := by
      norm_num [SearchResultParser.generateAmbiance]
    rw [h3]
    decide
  · have h3 : SearchResultParser.generateBestFor 3 = ["Casual Dining", "Group Dining"] := by
      norm_num [SearchResultParser.generateBestFor]
    rw [h3]
    decide
  · rfl

-- Witness for C2 (amended) at the concrete record and all-zero samples.
unseal Rat.mul Rat.add Rat.sub Rat.inv Rat.ofScientific in
theorem C2_synthesis_completeness_witness :
    SynthesisOutcome
      (SearchResultParser.transformToRestaurant dist0 {}
        (onlyRequired "Pasta Corner" "Italian" "123 Main Street, Rome") 0 0 loc0
        "pasta") :=
  C2_synthesis_completeness dist0 urlOk0 {} "Pasta Corner" "Italian"
    "123 Main Street, Rome" loc0 "pasta" 0 0 (by decide) (by decide) (by decide)
    (by decide) (by decide) (by decide) (by decide) (by decide)

/-! ## Quality validator (`restaurant-validator`, `RestaurantValidator`) -/

namespace RestaurantValidator

/-- Issue severities. -/
inductive Severity where
  | error
  | warning
  | info
deriving DecidableEq, Repr

/-- Model of `ValidationIssue`. -/
structure ValidationIssue where
  field : String
  severity : Severity
  message : String
  code : String
deriving DecidableEq, Repr

/-- Model of `ValidationResult`. -/
structure ValidationResult where
  isValid : Bool
  score : ℤ
  issues : List ValidationIssue
  warnings : List ValidationIssue
  suggestions : List String
deriving DecidableEq, Repr

/-- The validator's closed cuisine category set (`CUISINE_CATEGORIES`). -/
def CUISINE_CATEGORIES : List String :=
  ["Italian", "Japanese", "Mexican", "Chinese", "Indian", "Thai", "French",
   "American", "Mediterranean", "Korean", "Vietnamese", "Greek", "Spanish",
   "Lebanese", "Turkish", "Moroccan", "Ethiopian", "German", "Brazilian",
   "Peruvian", "Fusion", "Contemporary", "International", "Seafood",
   "Steakhouse", "BBQ", "Pizza", "Sushi", "Ramen", "Burger", "Cafe",
   "Deli", "Bakery", "Fast Food", "Fine Dining", "Casual Dining"]

/-- Model of `\s*` followed by the pattern `b`, with backtracking. -/
def gapThen (b : List Char) : List Char → Bool
  | [] => listStartsWith b []
  | c :: cs => listStartsWith b (c :: cs) || (isWs c && gapThen b cs)

/-- Unanchored search for `a` + `\s*` + `b` (e.g. `/test\s*restaurant/`). -/
def searchGap (a b : List Char) : List Char → Bool
  | [] => listStartsWith a [] && gapThen b []
  | c :: cs =>
    (listStartsWith a (c :: cs) && gapThen b ((c :: cs).drop a.length)) ||
    searchGap a b cs

/-- Model of `\s*\d+$`: after skipping any run of whitespace, a nonempty all-digit
remainder. -/
def wsThenDigits : List Char → Bool
  | [] => false
  | c :: cs => (c.isDigit && cs.all Char.isDigit) || (isWs c && wsThenDigits cs)

/-- Model of `\s*b$`: skip whitespace, then exactly `b` to the end. -/
def gapThenExact (b : List Char) : List Char → Bool
  | [] => b.isEmpty
  | c :: cs => (b == c :: cs) || (isWs c && gapThenExact b cs)

/-- The `SUSPICIOUS_PATTERNS` list applied case-insensitively to a name. -/
def suspiciousNameHit (name : String) : Bool :=
  let nl := (jsToLower name).data
  searchGap "test".data "restaurant".data nl ||
  searchGap "sample".data "restaurant".data nl ||
  searchGap "example".data "restaurant".data nl ||
  listHasSub "placeholder".data nl ||
  searchGap "lorem".data "ipsum".data nl ||
  (listStartsWith "restaurant".data nl && wsThenDigits (nl.drop 10)) ||
  (listStartsWith "the".data nl && gapThenExact "restaurant".data (nl.drop 3))

/-- Model of `/^(.+)\s+\1$/i`: some nonempty newline-free word, nonempty
whitespace, then the same word to the end (case-folded). -/
def dupNamePattern (name : String) : Bool :=
  let nl := (jsToLower name).data
  (List.range nl.length).any (fun i =>
    let w := nl.take (i + 1)
    let rest := nl.drop (i + 1)
    !(w.contains '\n') &&
    (List.range rest.length).any (fun j =>
      (rest.take (j + 1)).all isWs && rest.drop (j + 1) == w))

/-- Whitespace-separated words of a string (the `split(/\s+/)` tokens;
empty tokens are dropped, which is immaterial because callers filter by
length > 2). -/
def splitWs (s : String) : List String :=
  let step : (List String × List Char) → Char → (List String × List Char) :=
    fun acc c =>
      if isWs c then
        if acc.2.isEmpty then acc else (acc.1 ++ [⟨acc.2⟩], [])
      else (acc.1, acc.2 ++ [c])
  let r := s.data.foldl step ([], [])
  if r.2.isEmpty then r.1 else r.1 ++ [⟨r.2⟩]

/-- Character class `[\d\s\-\(\)]` of the validator's phone regex. -/
def vPhoneCharOk (c : Char) : Bool :=
  c.isDigit || isWs c || c == '-' || c == '(' || c == ')'

/-- Model of `/^[\+]?[1-9][\d\s\-\(\)]{9,20}$/.test(s)` (the validator requires a
leading nonzero digit, unlike the parser's regex). -/
def validatorPhoneOk (s : String) : Bool :=
  let afterPlus : List Char → Bool := fun cs =>
    match cs with
    | c :: rest =>
      (c.isDigit && !(c == '0')) && rest.all vPhoneCharOk &&
        decide (9 ≤ rest.length) && decide (rest.length ≤ 20)
    | [] => false
  match s.data with
  | '+' :: rest => afterPlus rest
  | cs => afterPlus cs

/-- Model of `validateRequiredFields`: an error per missing/empty required field. -/
def requiredFieldIssues (r : Restaurant) : List ValidationIssue :=
  (if r.name == "" || jsTrim r.name == "" then
    [⟨"name", Severity.error, "Required field 'name' is missing or empty",
      "REQUIRED_FIELD_MISSING"⟩] else []) ++
  (if r.cuisine == "" || jsTrim r.cuisine == "" then
    [⟨"cuisine", Severity.error, "Required field 'cuisine' is missing or empty",
      "REQUIRED_FIELD_MISSING"⟩] else []) ++
  (if r.address == "" || jsTrim r.address == "" then
    [⟨"address", Severity.error, "Required field 'address' is missing or empty",
      "REQUIRED_FIELD_MISSING"⟩] else [])

/-- The error-severity part of `validateDataQuality`. -/
def dataQualityIssues (r : Restaurant) : List ValidationIssue :=
  (if r.name ≠ "" ∧ r.name.length < 2 then
    [⟨"name", Severity.error, "Restaurant name is too short", "NAME_TOO_SHORT"⟩]
   else []) ++
  (if r.priceLevel ≠ 0 ∧ (r.priceLevel < 1 ∨ r.priceLevel > 5) then
    [⟨"priceLevel", Severity.error, "Price level must be between 1 and 5",
      "INVALID_PRICE_LEVEL"⟩] else []) ++
  (if r.rating ≠ 0 ∧ (r.rating < 1 ∨ r.rating > 5) then
    [⟨"rating", Severity.error, "Rating must be between 1 and 5",
      "INVALID_RATING"⟩] else []) ++
  (if r.reviewCount ≠ 0 ∧ r.reviewCount < 0 then
    [⟨"reviewCount", Severity.error, "Review count cannot be negative",
      "NEGATIVE_REVIEW_COUNT"⟩] else [])

/-- The warning-severity part of `validateDataQuality`; `urlOk` models
the `new URL(...)` structural parse. -/
def dataQualityWarnings (urlOk : String → Bool) (r : Restaurant) : List ValidationIssue :=
  (if r.name ≠ "" ∧ ¬(r.name.length < 2) ∧ r.name.length > 100 then
    [⟨"name", Severity.warning, "Restaurant name is unusually long",
      "NAME_TOO_LONG"⟩] else []) ++
  (if r.cuisine ≠ "" ∧ r.cuisine ∉ CUISINE_CATEGORIES then
    [⟨"cuisine", Severity.warning,
      "Cuisine '" ++ r.cuisine ++ "' is not in standard categories",
      "UNKNOWN_CUISINE"⟩] else []) ++
  (if truthyS r.phone ∧ ¬(validatorPhoneOk (jsStripWs (r.phone.getD ""))) then
    [⟨"phone", Severity.warning, "Phone number format appears invalid",
      "INVALID_PHONE_FORMAT"⟩] else []) ++
  (if truthyS r.website ∧ ¬(urlOk (r.website.getD "")) then
    [⟨"website", Severity.warning, "Website URL format appears invalid",
      "INVALID_URL_FORMAT"⟩] else []) ++
  (if r.address ≠ "" ∧ r.address.length < 10 then
    [⟨"address", Severity.warning, "Address appears to be incomplete",
      "INCOMPLETE_ADDRESS"⟩] else [])

/-- Model of `checkSuspiciousPatterns`: placeholder-style names and immediate
word repetition are errors. -/
def suspiciousIssues (r : Restaurant) : List ValidationIssue :=
  (if r.name ≠ "" ∧ suspiciousNameHit r.name then
    [⟨"name", Severity.error,
      "Restaurant name appears to be placeholder or test data",
      "SUSPICIOUS_NAME_PATTERN"⟩] else []) ++
  (if r.name ≠ "" ∧ dupNamePattern r.name then
    [⟨"name", Severity.error, "Restaurant name contains suspicious repetition",
      "DUPLICATE_NAME_PATTERN"⟩] else [])

/-- Model of `validateBusinessLogic` (warnings only). -/
def businessWarnings (r : Restaurant) : List ValidationIssue :=
  (if r.rating ≠ 0 ∧ r.reviewCount ≠ 0 ∧ r.rating ≥ 4.5 ∧ r.reviewCount < 10 then
    [⟨"rating", Severity.warning,
      "High rating with very few reviews may be unreliable",
      "SUSPICIOUS_RATING_PATTERN"⟩] else []) ++
  (if r.priceLevel ≠ 0 ∧ r.priceLevel ≥ 4 ∧ ¬(truthyS r.website) then
    [⟨"website", Severity.warning, "High-end restaurants typically have websites",
      "MISSING_EXPECTED_FEATURE"⟩] else []) ++
  (if r.priceLevel ≠ 0 ∧ r.ambiance ≠ "" ∧
      ((r.priceLevel ≤ 2 ∧
        (jsIncludes (jsToLower r.ambiance) "upscale" ∨
         jsIncludes (jsToLower r.ambiance) "elegant")) ∨
       (r.priceLevel ≥ 4 ∧ jsIncludes (jsToLower r.ambiance) "casual")) then
    [⟨"ambiance", Severity.warning,
      "Price level and ambiance description may be inconsistent",
      "INCONSISTENT_PRICE_AMBIANCE"⟩] else [])

/-- Model of `validateLocationRelevance` (warnings only). -/
def locationWarnings (r : Restaurant) (searchLocation : LocationData) :
    List ValidationIssue :=
  (if r.address ≠ "" ∧ truthyS searchLocation.city ∧
      ¬(jsIncludes (jsToLower r.address) (jsToLower (searchLocation.city.getD ""))) then
    [⟨"address", Severity.warning,
      "Restaurant address may not be in search city (" ++
        searchLocation.city.getD "" ++ ")",
      "LOCATION_MISMATCH"⟩] else []) ++
  (if r.distance ≠ "" ∧ r.distance ≠ "Unknown" ∧
      (match jsParseFloat (jsRemoveFirst r.distance " mi") with
       | some v => decide (v > 25)
       | none => false) = true then
    [⟨"distance", Severity.warning,
      "Restaurant is unusually far from search location",
      "EXCESSIVE_DISTANCE"⟩] else [])

/-- Model of `validateQueryRelevance`: a warning plus a suggestion when no query
token relates to the record. -/
def queryRelevance (r : Restaurant) (searchQuery : String) :
    List ValidationIssue × List String :=
  let queryLower := jsToLower searchQuery
  let nameLower := jsToLower r.name
  let cuisineLower := jsToLower r.cuisine
  let matchesName := jsIncludes queryLower nameLower || jsIncludes nameLower queryLower
  let matchesCuisine :=
    jsIncludes queryLower cuisineLower || jsIncludes cuisineLower queryLower
  if ¬matchesName ∧ ¬matchesCuisine then
    let queryWords := (splitWs queryLower).filter (fun w => w.length > 2)
    let hasAnyMatch := queryWords.any (fun w =>
      jsIncludes nameLower w || jsIncludes cuisineLower w ||
      jsIncludes (jsToLower r.description) w)
    if ¬hasAnyMatch then
      ([⟨"relevance", Severity.warning,
        "Restaurant may not be relevant to search query",
        "LOW_QUERY_RELEVANCE"⟩],
       ["Consider restaurants more closely matching \"" ++ searchQuery ++ "\""])
    else ([], [])
  else ([], [])

/-- Model of `calculateCompleteness`: 30 points per populated required field, 10
per populated optional field, 5 per non-empty array field, normalized to
0–100. -/
def calculateCompleteness (r : Restaurant) : ℚ :=
  let strOk : String → Bool := fun s => !(s == "") && !(jsTrim s == "")
  let optOk : Option String → Bool := fun o => truthyS o && !(jsTrim (o.getD "") == "")
  let score : ℚ :=
    (if strOk r.name then 30 else 0) + (if strOk r.cuisine then 30 else 0) +
    (if strOk r.address then 30 else 0) +
    (if optOk r.phone then 10 else 0) + (if optOk r.website then 10 else 0) +
    (if optOk r.hours then 10 else 0) +
    (if r.rating ≠ 0 then 10 else 0) + (if r.reviewCount ≠ 0 then 10 else 0) +
    (if r.specialties.length > 0 then 5 else 0) +
    (if r.dietaryOptions.length > 0 then 5 else 0) +
    (if r.bestFor.length > 0 then 5 else 0)
  let maxScore : ℚ := 30 * 3 + 10 * 5 + 5 * 3
  (score / maxScore) * 100

/-- The rating-confidence bonus of `calculateQualityScore`. -/
def ratingBonus (r : Restaurant) : ℚ :=
  if r.rating ≠ 0 ∧ r.reviewCount ≠ 0 then
    if r.rating ≥ 4 ∧ r.reviewCount ≥ 50 then 10
    else if r.rating ≥ 3.5 ∧ r.reviewCount ≥ 20 then 5
    else 0
  else 0

/-- The raw quality score before rounding and clamping: start at 100,
−20 per error, −5 per warning, plus the completeness and rating
bonuses. -/
def qualityScoreRaw (r : Restaurant)
    (issues warnings : List ValidationIssue) : ℚ :=
  100 - (issues.length : ℚ) * 20 - (warnings.length : ℚ) * 5 +
    (calculateCompleteness r - 50) * 0.3 + ratingBonus r

/-- Model of `Math.round(score)` — the quality score before clamping to [0,100]. -/
def calculateQualityScorePre (r : Restaurant)
    (issues warnings : List ValidationIssue) : ℤ :=
  jsRound (qualityScoreRaw r issues warnings)

/-- Model of `calculateQualityScore` (`RestaurantValidator`, part_013:434-461). -/
def calculateQualityScore (r : Restaurant)
    (issues warnings : List ValidationIssue) : ℤ :=
  max 0 (min 100 (calculateQualityScorePre r issues warnings))

/-- Model of `validateRestaurant` (part_013:54-95): run all checks, collect
error-severity issues and warnings separately, compute the score;
`isValid` iff the issue list is empty. -/
def validateRestaurant (urlOk : String → Bool) (r : Restaurant)
    (searchLocation : Option LocationData) (searchQuery : Option String) :
    ValidationResult :=
  let locW := match searchLocation with
    | some l => locationWarnings r l
    | none => []
  let qr := match searchQuery with
    | some q => if q == "" then ([], []) else queryRelevance r q
    | none => ([], [])
  let issues := requiredFieldIssues r ++ dataQualityIssues r ++ suspiciousIssues r
  let warnings := dataQualityWarnings urlOk r ++ businessWarnings r ++ locW ++ qr.1
  { isValid := issues.isEmpty
    score := calculateQualityScore r issues warnings
    issues := issues
    warnings := warnings
    suggestions := qr.2.take 3 }

/-- The list-level statistics of `validateRestaurantList`. -/
structure ListStatistics where
  totalCount : ℕ
  validCount : ℕ
  invalidCount : ℕ
  averageScore : ℤ
  excellent : ℕ
  good : ℕ
  fair : ℕ
  poor : ℕ
deriving DecidableEq, Repr

/-- The result of `validateRestaurantList`. -/
structure ListValidationResult where
  valid : List (Restaurant × ValidationResult)
  invalid : List (Restaurant × ValidationResult)
  statistics : ListStatistics
deriving DecidableEq, Repr

/-- Model of `validateRestaurantList` (part_013:100-148): validate each record,
partition by validity, sort the valid ones by score (descending, stable),
and compute statistics over all results. -/
def validateRestaurantList (urlOk : String → Bool) (restaurants : List Restaurant)
    (searchLocation : Option LocationData) (searchQuery : Option String) :
    ListValidationResult :=
  let results := restaurants.map (fun r =>
    (r, validateRestaurant urlOk r searchLocation searchQuery))
  let valid := results.filter (fun p => p.2.isValid)
  let invalid := results.filter (fun p => !p.2.isValid)
  let sortedValid := sortBy
    (fun x y => decide ((y.2.score - x.2.score : ℤ) ≤ 0)) valid
  let scores := results.map (fun p => p.2.score)
  let averageScore : ℤ :=
    if scores.length = 0 then 0
    else jsRound ((scores.sum : ℚ) / (scores.length : ℚ))
  { valid := sortedValid
    invalid := invalid
    statistics :=
      { totalCount := restaurants.length
        validCount := valid.length
        invalidCount := invalid.length
        averageScore := averageScore
        excellent := (results.filter (fun p => p.2.score ≥ 90)).length
        good := (results.filter (fun p => p.2.score ≥ 70 ∧ p.2.score < 90)).length
        fair := (results.filter (fun p => p.2.score ≥ 50 ∧ p.2.score < 70)).length
        poor := (results.filter (fun p => p.2.score < 50)).length } }

end RestaurantValidator

/-! ### C4: score monotonicity in errors and warnings -/

theorem jsRound_sub_int (x : ℚ) (n : ℤ) : jsRound (x - n) = jsRound x - n := by
  unfold jsRound
  rw [show x - n + 1/2 = (x + 1/2) - n by ring]
  exact Int.floor_sub_int _ _

/-- C4.  Validator score monotonicity: holding the restaurant and the
other list fixed, one additional error-severity issue lowers the
pre-clamp quality score (`Math.round` of the raw score) by exactly 20,
and one additional warning lowers it by exactly 5. -/
theorem C4_score_monotonicity (r : Restaurant)
    (i w : RestaurantValidator.ValidationIssue)
    (issues warnings : List RestaurantValidator.ValidationIssue) :
    RestaurantValidator.calculateQualityScorePre r (i :: issues) warnings =
      RestaurantValidator.calculateQualityScorePre r issues warnings - 20 ∧
    RestaurantValidator.calculateQualityScorePre r issues (w :: warnings) =
      RestaurantValidator.calculateQualityScorePre r issues warnings - 5 := by
  constructor
  · have hraw : RestaurantValidator.qualityScoreRaw r (i :: issues) warnings =
        RestaurantValidator.qualityScoreRaw r issues warnings - ((20 : ℤ) : ℚ) := by
      unfold RestaurantValidator.qualityScoreRaw
      simp only [List.length_cons]
      push_cast
      ring
    unfold RestaurantValidator.calculateQualityScorePre
    rw [hraw, jsRound_sub_int]
  · have hraw : RestaurantValidator.qualityScoreRaw r issues (w :: warnings) =
        RestaurantValidator.qualityScoreRaw r issues warnings - ((5 : ℤ) : ℚ) := by
      unfold RestaurantValidator.qualityScoreRaw
      simp only [List.length_cons]
      push_cast
      ring
    unfold RestaurantValidator.calculateQualityScorePre
    rw [hraw, jsRound_sub_int]

/-! ### C5: validity iff zero recorded errors -/

namespace RestaurantValidator

theorem eq_of_mem_ite_singleton {c : Prop} [Decidable c] {a x : ValidationIssue}
    (h : x ∈ (if c then [a] else [])) : x = a := by
  by_cases hc : c
  · rw [if_pos hc] at h
    simpa using h
  · rw [if_neg hc] at h
    simp at h

theorem issues_severity (urlOk : String → Bool) (r : Restaurant)
    (loc : Option LocationData) (q : Option String) :
    ∀ x ∈ (validateRestaurant urlOk r loc q).issues, x.severity = Severity.error := by
  intro x hx
  simp only [validateRestaurant] at hx
  simp only [requiredFieldIssues, dataQualityIssues, suspiciousIssues,
    List.mem_append] at hx
  casesm* _ ∨ _ <;> (rename_i h; rw [eq_of_mem_ite_singleton h])

theorem queryRelevance_warnings_severity (r : Restaurant) (q : String) :
    ∀ x ∈ (queryRelevance r q).1, x.severity = Severity.warning := by
  intro x hx
  simp only [queryRelevance] at hx
  split_ifs at hx
  all_goals simp at hx
  all_goals rw [hx]

theorem warnings_severity (urlOk : String → Bool) (r : Restaurant)
    (loc : Option LocationData) (q : Option String) :
    ∀ x ∈ (validateRestaurant urlOk r loc q).warnings,
      x.severity = Severity.warning := by
  intro x hx
  simp only [validateRestaurant] at hx
  simp only [List.mem_append] at hx
  rcases hx with ((hx | hx) | hx) | hx
  · simp only [dataQualityWarnings, List.mem_append] at hx
    casesm* _ ∨ _ <;> (rename_i h; rw [eq_of_mem_ite_singleton h])
  · simp only [businessWarnings, List.mem_append] at hx
    casesm* _ ∨ _ <;> (rename_i h; rw [eq_of_mem_ite_singleton h])
  · cases loc with
    | none => simp at hx
    | some l =>
      simp only [locationWarnings, List.mem_append] at hx
      casesm* _ ∨ _ <;> (rename_i h; rw [eq_of_mem_ite_singleton h])
  · cases q with
    | none => simp at hx
    | some qs =>
      by_cases hq : qs == ""
      · simp only [hq, if_pos] at hx
        simp at hx
      · simp only [hq] at hx
        simp only [Bool.false_eq_true, if_false] at hx
        exact queryRelevance_warnings_severity r qs x hx

/-- Count of error-severity entries in an issue list. -/
def countErrors (l : List ValidationIssue) : ℕ :=
  (l.filter (fun i => i.severity == Severity.error)).length

end RestaurantValidator

/-- C5.  `isValid` is true iff zero error-severity issues were recorded
across the validator's entire output (`issues ++ warnings`); warnings
alone never make a record invalid, because every entry of `issues` has
error severity and every entry of `warnings` has warning severity. -/
theorem C5_isValid_iff_no_errors (urlOk : String → Bool) (r : Restaurant)
    (loc : Option LocationData) (q : Option String) :
    (RestaurantValidator.validateRestaurant urlOk r loc q).isValid = true ↔
    RestaurantValidator.countErrors
      ((RestaurantValidator.validateRestaurant urlOk r loc q).issues ++
       (RestaurantValidator.validateRestaurant urlOk r loc q).warnings) = 0 := by
  have hw : ((RestaurantValidator.validateRestaurant urlOk r loc q).warnings.filter
      (fun i => i.severity == RestaurantValidator.Severity.error)).length = 0 := by
    rw [List.length_eq_zero, List.filter_eq_nil_iff]
    intro a ha
    have := RestaurantValidator.warnings_severity urlOk r loc q a ha
    simp [this]
  have hisV : (RestaurantValidator.validateRestaurant urlOk r loc q).isValid =
      (RestaurantValidator.validateRestaurant urlOk r loc q).issues.isEmpty := by
    simp only [RestaurantValidator.validateRestaurant]
  rw [hisV]
  unfold RestaurantValidator.countErrors
  rw [List.filter_append, List.length_append]
  constructor
  · intro h
    have : (RestaurantValidator.validateRestaurant urlOk r loc q).issues = [] :=
      List.isEmpty_iff.mp h
    rw [this]
    simpa using hw
  · intro h
    rw [List.isEmpty_iff]
    have h1 : ((RestaurantValidator.validateRestaurant urlOk r loc q).issues.filter
        (fun i => i.severity == RestaurantValidator.Severity.error)).length = 0 := by
      omega
    rw [List.length_eq_zero, List.filter_eq_nil_iff] at h1
    cases hi : (RestaurantValidator.validateRestaurant urlOk r loc q).issues with
    | nil => rfl
    | cons a l =>
      exfalso
      have hmem : a ∈ (RestaurantValidator.validateRestaurant urlOk r loc q).issues := by
        rw [hi]; simp
      have := RestaurantValidator.issues_severity urlOk r loc q a hmem
      exact h1 a hmem (by simp [this])

/-! ## Error handling (`src/lib/error-handling.ts`) -/

/-- Generic JS-`Map.set` on an association list: replace in place or
append. -/
def assocSet {β : Type} (k : String) (v : β) : List (String × β) → List (String × β)
  | [] => [(k, v)]
  | (k', v') :: rest =>
    if k' == k then (k, v) :: rest else (k', v') :: assocSet k v rest

namespace RestaurantSearchErrorHandler

/-- The error taxonomy (`SearchError.type`). -/
inductive ErrorKind where
  | network
  | api_limit
  | validation
  | timeout
  | unknown
deriving DecidableEq, Repr

/-- The string form of an error kind, as carried in the TS union type. -/
def kindStr : ErrorKind → String
  | .network => "network"
  | .api_limit => "api_limit"
  | .validation => "validation"
  | .timeout => "timeout"
  | .unknown => "unknown"

/-- The shape of the untyped thrown value inspected by `classifyError`:
its `message`, its `toString()` rendering, and the `status`/`code`
properties when present. -/
structure JsError where
  message : Option String := none
  str : String := ""
  status : Option ℚ := none
  code : Option String := none
deriving DecidableEq, Repr

/-- The context record passed to `handleSearchError`. -/
structure ErrorContext where
  query : String
  location : LocationData
  attempt : ℕ
deriving DecidableEq, Repr

/-- Model of `SearchError` (context flattened into the record). -/
structure SearchErrorM where
  type : ErrorKind
  message : String
  code : String
  retryable : Bool
  fallbackAvailable : Bool
deriving DecidableEq, Repr

/-- Model of `ErrorRecoveryOptions`. -/
inductive Quality where
  | high
  | medium
  | low
deriving DecidableEq, Repr

structure ErrorRecoveryOptions where
  enableFallback : Bool
  maxRetries : ℕ
  retryDelay : ℕ
  fallbackQuality : Quality
deriving DecidableEq, Repr

/-- The fallback strategies of `handleSearchError`. -/
inductive FallbackStrategy where
  | none
  | mock
  | cache
  | simplified_search
deriving DecidableEq, Repr

/-- Model of `classifyError` (`error-handling.ts:198-259`): pattern-match the
error's lowercased message (and `status`/`code`) against the taxonomy. -/
def classifyError (e : JsError) : SearchErrorM :=
  let errorMessage := orDefaultS e.message (orDefaultS (some e.str) "Unknown error")
  let errorLower := jsToLower errorMessage
  if jsIncludes errorLower "network" || jsIncludes errorLower "fetch" ||
      jsIncludes errorLower "connection" then
    ⟨.network, "Network connection failed", "NETWORK_ERROR", true, true⟩
  else if jsIncludes errorLower "rate" || jsIncludes errorLower "limit" ||
      jsIncludes errorLower "quota" then
    ⟨.api_limit, "API rate limit exceeded", "RATE_LIMIT_ERROR", false, true⟩
  else if jsIncludes errorLower "validation" || jsIncludes errorLower "invalid" ||
      e.status == some 400 then
    ⟨.validation, "Invalid search parameters", "VALIDATION_ERROR", false, true⟩
  else if jsIncludes errorLower "timeout" || jsIncludes errorLower "aborted" ||
      e.code == some "ECONNABORTED" then
    ⟨.timeout, "Search request timed out", "TIMEOUT_ERROR", true, true⟩
  else
    ⟨.unknown, errorMessage, "UNKNOWN_ERROR", true, true⟩

/-- The sliding-window error-count state (`errorCount` static map):
key → (count, lastError timestamp). -/
def ErrMap : Type := List (String × (ℕ × ℕ))

def HOUR_MS : ℕ := 60 * 60 * 1000

def MAX_ERRORS_PER_HOUR : ℕ := 10

/-- The last `n` characters of a string (JS `slice(-n)`). -/
def strTakeRight (s : String) (n : ℕ) : String :=
  ⟨s.data.drop (s.data.length - n)⟩

/-- The per-origin error key
`${context.location.city || 'unknown'}-${Date.now().toString().slice(-6)}`. -/
def mkErrorKey (ctx : ErrorContext) (now : ℕ) : String :=
  orDefaultS ctx.location.city "unknown" ++ "-" ++ strTakeRight (toString now) 6

/-- Model of `trackError` (`error-handling.ts:261-280`): bump the counter inside
the one-hour window, else reset it; past 100 tracked keys, stale entries
are swept. -/
def trackError (errorKey : String) (now : ℕ) (st : ErrMap) : ErrMap :=
  let st' : ErrMap :=
    match st.lookup errorKey with
    | some (count, lastErr) =>
      if now - lastErr < HOUR_MS then assocSet errorKey (count + 1, now) st
      else assocSet errorKey (1, now) st
    | none => assocSet errorKey (1, now) st
  if st'.length > 100 then
    st'.filter (fun p => ¬(now - p.2.2 > HOUR_MS))
  else st'

/-- Model of `isErrorRateExceeded`. -/
def isErrorRateExceeded (errorKey : String) (st : ErrMap) : Bool :=
  match st.lookup errorKey with
  | some (count, _) => count ≥ MAX_ERRORS_PER_HOUR
  | none => false

/-- Model of `selectFallbackStrategy` (`error-handling.ts:287-309`): never
returns `none`. -/
def selectFallbackStrategy (error : SearchErrorM) (ctx : ErrorContext) :
    FallbackStrategy :=
  if error.type == .api_limit then .cache
  else if error.type == .network then
    (if ctx.attempt == 0 then .simplified_search else .mock)
  else if error.type == .validation then .mock
  else .mock

/-- Model of `generateUserMessage`. -/
def generateUserMessage (strategy : FallbackStrategy) (ctx : ErrorContext) : String :=
  let location := orDefaultS ctx.location.city "your area"
  match strategy with
  | .mock =>
    "We're having trouble finding restaurants in " ++ location ++
      " right now, so we've provided some local suggestions based on your preferences."
  | .cache =>
    "Using previously found restaurants in " ++ location ++
      " while we resolve the search issue."
  | .simplified_search =>
    "Trying a simplified search for restaurants in " ++ location ++ "..."
  | .none =>
    "Unable to search for restaurants in " ++ location ++ ". Please try again later."

/-- The record returned by `handleSearchError`. -/
structure HandleResult where
  searchError : SearchErrorM
  shouldRetry : Bool
  fallbackStrategy : FallbackStrategy
  userMessage : String
deriving DecidableEq, Repr

/-- Model of `handleSearchError` (`error-handling.ts:29-75`): classify, track the
error, decide retry (retryable ∧ attempts left ∧ rate not exceeded),
pick the fallback strategy when fallback is enabled and available, and
build the user message.  The updated error-count state is returned
alongside. -/
def handleSearchError (e : JsError) (ctx : ErrorContext)
    (options : ErrorRecoveryOptions) (st : ErrMap) (now : ℕ) :
    HandleResult × ErrMap :=
  let searchError := classifyError e
  let errorKey := mkErrorKey ctx now
  let st' := trackError errorKey now st
  let shouldRetry := searchError.retryable && ctx.attempt < options.maxRetries &&
    !(isErrorRateExceeded errorKey st')
  let fallbackStrategy :=
    if options.enableFallback && searchError.fallbackAvailable then
      selectFallbackStrategy searchError ctx
    else FallbackStrategy.none
  let userMessage := generateUserMessage fallbackStrategy ctx
  (⟨searchError, shouldRetry, fallbackStrategy, userMessage⟩, st')

/-- The user-facing error record of `createUserFriendlyError`. -/
structure UserError where
  message : String
  suggestions : List String
  canRetry : Bool
deriving DecidableEq, Repr

/-- Model of `createUserFriendlyError` (`error-handling.ts:129-194`). -/
def createUserFriendlyError (t : String) : UserError :=
  if t == "network" then
    ⟨"Unable to connect to restaurant search services. Please check your internet connection.",
     ["Check your internet connection", "Try again in a few moments",
      "Use a different location if possible"], true⟩
  else if t == "api_limit" then
    ⟨"We've reached our search limit for now. Please try again later or use the fallback results.",
     ["Try again in 10-15 minutes", "Use a more specific search query",
      "Browse the suggested restaurants instead"], false⟩
  else if t == "location_invalid" then
    ⟨"The location provided doesn't seem to be valid for restaurant search.",
     ["Try a different city or address", "Use your current location if available",
      "Check the spelling of the location name"], true⟩
  else if t == "no_results" then
    ⟨"No restaurants found matching your criteria in this area.",
     ["Try a broader search query", "Expand your search radius",
      "Remove some filters to see more options"], true⟩
  else if t == "timeout" then
    ⟨"The search is taking longer than expected. Please try again.",
     ["Try a simpler search query", "Check your internet connection",
      "Try again in a moment"], true⟩
  else
    ⟨"Something went wrong with the restaurant search. Please try again.",
     ["Try again with a different search", "Check your internet connection",
      "Contact support if the problem persists"], true⟩

end RestaurantSearchErrorHandler

namespace RestaurantSearchErrorHandler

/-- One fallback restaurant's worth of `Math.random()` draws, each in
`[0,1)`. -/
structure FallbackSamples where
  price : ℚ := 0
  rating : ℚ := 0
  review : ℚ := 0
  addrNum : ℚ := 0
  addrStreet : ℚ := 0
  phoneArea : ℚ := 0
  phoneExch : ℚ := 0
  phoneNum : ℚ := 0
  dietaryCount : ℚ := 0
  waitGate : ℚ := 0
  waitMin : ℚ := 0
  distR : ℚ := 0
  matchR : ℚ := 0
deriving DecidableEq, Repr

/-- Left-pad with `'0'` to four characters (JS `padStart(4, '0')`). -/
def pad4 (s : String) : String :=
  ⟨List.replicate (4 - s.data.length) '0' ++ s.data⟩

/-- Model of `generateFallbackAddress`. -/
def generateFallbackAddress (s : FallbackSamples) (location : LocationData) : String :=
  let streetNames := ["Main St", "First Ave", "Broadway", "Oak St", "Park Ave", "Center St"]
  toString ((jsFloor (s.addrNum * 9999)).toNat + 100) ++ " " ++
    streetNames.getD (jsFloor (s.addrStreet * streetNames.length)).toNat "" ++ ", " ++
    orDefaultS location.city "City"

/-- Model of `generateFallbackPhone`. -/
def generateFallbackPhone (s : FallbackSamples) : String :=
  "(" ++ toString ((jsFloor (s.phoneArea * 800)).toNat + 200) ++ ") " ++
  toString ((jsFloor (s.phoneExch * 800)).toNat + 200) ++ "-" ++
  pad4 (toString (jsFloor (s.phoneNum * 10000)).toNat)

/-- Model of `getSpecialtiesForCuisine`. -/
def getSpecialtiesForCuisine (cuisine : String) : List String :=
  (([("Italian", ["Pasta", "Pizza", "Risotto"]),
     ("Japanese", ["Sushi", "Ramen", "Tempura"]),
     ("Mexican", ["Tacos", "Guacamole", "Enchiladas"]),
     ("Chinese", ["Kung Pao", "Fried Rice", "Dumplings"]),
     ("Indian", ["Curry", "Naan", "Biryani"]),
     ("American", ["Burgers", "Steaks", "BBQ"])] :
    List (String × List String)).lookup cuisine).getD ["House Special"]

/-- Model of `getRandomDietaryOptions`. -/
def getRandomDietaryOptions (s : FallbackSamples) : List String :=
  ["Vegetarian", "Vegan", "Gluten-Free", "Dairy-Free"].take
    ((jsFloor (s.dietaryCount * 2)).toNat + 1)

/-- Model of `generateFallbackMatchReasons`. -/
def generateFallbackMatchReasons (query cuisine : String) : List String :=
  let reasons :=
    ["Popular " ++ jsToLower cuisine ++ " restaurant",
     "Good ratings from locals", "Convenient location"]
  (if jsIncludes (jsToLower query) (jsToLower cuisine) then
    ("Matches your " ++ cuisine ++ " cuisine preference") :: reasons
   else reasons).take 2

/-- One entry of `generateFallbackRestaurants`'s loop body. -/
def mkFallbackRestaurant (s : FallbackSamples) (nowMs : ℕ) (query : String)
    (location : LocationData) (quality : Quality) (i : ℕ) : Restaurant :=
  let cuisineTypes := ["Italian", "American", "Mexican", "Chinese", "Japanese", "Indian"]
  let baseNames :=
    ["Local Favorite", "City Bistro", "Corner Cafe", "Downtown Grill",
     "Main Street", "Garden Restaurant", "Plaza Dining", "Central Kitchen"]
  let cuisine := cuisineTypes.getD (i % cuisineTypes.length) ""
  let baseName := baseNames.getD (i % baseNames.length) ""
  let cityName := orDefaultS location.city "Local"
  { id := "fallback-" ++ toString nowMs ++ "-" ++ toString i
    name := jsTrim (cityName ++ " " ++ baseName ++ " " ++
      (if i > baseNames.length - 1 then toString (i - baseNames.length + 2) else ""))
    cuisine := cuisine
    description := (if quality == Quality.high then "Popular" else "Local") ++ " " ++
      jsToLower cuisine ++ " restaurant in " ++ cityName
    priceLevel := (jsFloor (s.price * 3) : ℚ) + 2
    rating := if quality == Quality.high then 4 + s.rating * 0.8 else 3.5 + s.rating * 1
    reviewCount :=
      if quality == Quality.high then ((jsFloor (s.review * 500) : ℚ) + 200)
      else ((jsFloor (s.review * 200) : ℚ) + 50)
    address := generateFallbackAddress s location
    phone := some (generateFallbackPhone s)
    website := some ("https://" ++ jsStripWs (jsToLower baseName) ++ ".com")
    hours := some "Daily 11am-10pm"
    specialties := getSpecialtiesForCuisine cuisine
    dietaryOptions := getRandomDietaryOptions s
    ambiance := if quality == Quality.high then "Modern and inviting" else "Casual and friendly"
    bestFor := if quality == Quality.high then ["Date Night", "Family Dinner"]
      else ["Casual Dining"]
    estimatedWaitTime :=
      if s.waitGate > 0.5 then some (toString ((jsFloor (s.waitMin * 20)).toNat + 10) ++ " min")
      else none
    distance := jsToFixed1 (s.distR * 5 + 0.5) ++ " mi"
    matchScore :=
      if quality == Quality.high then 75 + (jsFloor (s.matchR * 20) : ℚ)
      else 60 + (jsFloor (s.matchR * 20) : ℚ)
    matchReasons := generateFallbackMatchReasons query cuisine
    imageUrl := some ("/placeholder.svg?height=200&width=300&text=" ++
      SearchResultParser.jsEncodeURIComponent baseName) }

/-- Model of `generateFallbackRestaurants` (`error-handling.ts:80-124`): 8/6/4
synthetic records for high/medium/low quality, sorted by match score
(descending, stable). -/
def generateFallbackRestaurants (samples : ℕ → FallbackSamples) (nowMs : ℕ)
    (query : String) (location : LocationData) (quality : Quality) :
    List Restaurant :=
  let count := match quality with
    | Quality.high => 8
    | Quality.medium => 6
    | Quality.low => 4
  let restaurants := (List.range count).map
    (fun i => mkFallbackRestaurant (samples i) nowMs query location quality i)
  sortBy (fun a b => decide ((b.matchScore - a.matchScore : ℚ) ≤ 0)) restaurants

end RestaurantSearchErrorHandler

/-! ## Search orchestration route (the `POST` handler) -/

namespace SearchApi

open RestaurantSearchErrorHandler

/-- The request body after `req.json()` destructuring (defaults applied
only for `undefined`). -/
structure PostRequest where
  query : Option String := none
  location : Option LocationData := none
  radius : Option ℚ := none
  priceRange : Option (List ℚ) := none
  cuisine : Option String := none
  dietaryRestrictions : Option (List String) := none
  maxResults : Option ℕ := none
deriving DecidableEq, Repr

/-- The `searchMetadata` carried in responses and cache entries. -/
structure RespMeta where
  query : String
  location : String
  totalFound : ℕ
  confidence : ℚ
  usedFallback : Bool
  errType : Option ErrorKind := none
deriving DecidableEq, Repr

/-- The payload written to / read from the search cache
(`{restaurants, searchMetadata}` with the attached stats). -/
structure CachePayload where
  restaurants : List Restaurant
  metadata : RespMeta
  qualityStats : SearchResultParser.ParsedStats
  validationStats : RestaurantValidator.ListStatistics
deriving DecidableEq, Repr

/-- The outcome of the external black-box provider call
`openAISearchService.searchRestaurants`: either raw records plus the
provider's metadata, or a thrown error. -/
inductive ProviderOutcome where
  | success (restaurants : List RawRestaurantData) (md : RespMeta)
  | failure (e : JsError)
deriving DecidableEq, Repr

/-- The observable result of the route. -/
inductive PostResult where
  | ok (restaurants : List Restaurant) (usedFallback : Bool) (cached : Bool)
  | badRequest
  | serviceUnavailable (err : UserError)
deriving DecidableEq, Repr

/-- Returns `true` exactly on the 503 "no fallback available" branch. -/
def PostResult.isServiceUnavailable : PostResult → Bool
  | .serviceUnavailable _ => true
  | _ => false

/-- The cache-key parameters the route passes to `generateCacheKey`
(query defaulted to `''`, radius to 10 by destructuring). -/
def reqKeyParams (req : PostRequest) (loc : LocationData) :
    SearchCache.CacheKeyParams :=
  { query := req.query.getD ""
    location := loc
    cuisine := req.cuisine
    dietaryRestrictions := req.dietaryRestrictions
    priceRange := req.priceRange
    radius := some (match req.radius with | some r => r | none => 10) }

/-- Projection of a fallback `Restaurant` onto the raw-record shape (the
route feeds `generateFallbackRestaurants` output straight into
`parseRestaurants`). -/
def restaurantToRaw (r : Restaurant) : RawRestaurantData :=
  { name := some r.name
    cuisine := some r.cuisine
    description := some r.description
    priceLevel := some r.priceLevel
    rating := some r.rating
    reviewCount := some r.reviewCount
    address := some r.address
    phone := r.phone
    website := r.website
    hours := r.hours
    specialties := some r.specialties
    dietaryOptions := some r.dietaryOptions
    ambiance := some r.ambiance
    bestFor := some r.bestFor
    estimatedWaitTime := r.estimatedWaitTime
    coordinates := none
    sourceInfo := none
    distance := some r.distance }

/-- The `POST` route (`/api/restaurants/search`): validate the location,
derive the cache key, serve a cache hit; otherwise use the provider
outcome — on failure run the error handler and either synthesize
fallback data or answer 503 — then parse, validate, filter by the
quality threshold (60), and cache the result only when it does not come
from the fallback path.  Returns the result, the new cache state, and
the new error-count state. -/
def postSearch (dist : ℚ → ℚ → ℚ → ℚ → ℚ) (urlOk : String → Bool)
    (tSamples : ℕ → SearchResultParser.TransformSamples)
    (fSamples : ℕ → FallbackSamples)
    (req : PostRequest) (outcome : ProviderOutcome)
    (cache : SearchCache.State CachePayload) (errSt : ErrMap) (now : ℕ) :
    PostResult × SearchCache.State CachePayload × ErrMap :=
  match req.location with
  | none => (.badRequest, cache, errSt)
  | some loc =>
    if loc.latitude == 0 && loc.longitude == 0 then (.badRequest, cache, errSt)
    else
      let maxResults := match req.maxResults with | some m => m | none => 8
      let cacheKey := SearchCache.generateCacheKey (reqKeyParams req loc)
      let got := SearchCache.getOp now cacheKey cache
      match got.1 with
      | some payload =>
        (.ok payload.restaurants payload.metadata.usedFallback true, got.2, errSt)
      | none =>
        let cont : List RawRestaurantData → Bool → RespMeta → ErrMap →
            PostResult × SearchCache.State CachePayload × ErrMap :=
          fun restaurants usedFallback md errSt' =>
            let parseResult := SearchResultParser.parseRestaurants dist urlOk
              tSamples now restaurants loc (req.query.getD "")
            let validationResult := RestaurantValidator.validateRestaurantList urlOk
              parseResult.valid (some loc) req.query
            let finalRestaurants :=
              ((validationResult.valid.filter (fun p => p.2.score ≥ 60)).map
                Prod.fst).take maxResults
            let payload : CachePayload :=
              { restaurants := finalRestaurants
                metadata := { md with usedFallback := usedFallback }
                qualityStats := parseResult.stats
                validationStats := validationResult.statistics }
            let cache' :=
              if ¬usedFallback ∧ finalRestaurants.length > 0 then
                SearchCache.setOp now cacheKey payload
                  ⟨loc, req.query.getD "", finalRestaurants.length⟩ got.2
              else got.2
            (.ok finalRestaurants usedFallback false, cache', errSt')
        match outcome with
        | .success rs md => cont rs false md errSt
        | .failure e =>
          let eh := handleSearchError e ⟨req.query.getD "", loc, 0⟩
            ⟨true, 1, 1000, Quality.medium⟩ errSt now
          if eh.1.fallbackStrategy ≠ FallbackStrategy.none then
            let fallbackRestaurants := generateFallbackRestaurants fSamples now
              (req.query.getD "") loc Quality.medium
            let md : RespMeta :=
              { query := orDefaultS req.query "restaurants"
                location := orDefaultS loc.city
                  (jsNumRepr loc.latitude ++ ", " ++ jsNumRepr loc.longitude)
                totalFound := fallbackRestaurants.length
                confidence := 0.6
                usedFallback := false
                errType := some eh.1.searchError.type }
            cont (fallbackRestaurants.map restaurantToRaw) true md eh.2
          else
            (.serviceUnavailable (createUserFriendlyError (kindStr eh.1.searchError.type)),
             got.2, eh.2)

end SearchApi

/-! ### C8: the retry decision -/

/-- C8.  The classifier marks an error retryable exactly when its kind is
`network`, `timeout` or `unknown` (so never for `api_limit` or
`validation`), and `handleSearchError` answers `shouldRetry = true` iff
the error is retryable, the attempt count is below the configured
maximum, and the per-origin error-rate limiter (after recording this
error) has not been exceeded. -/
theorem C8_retry_decision :
    (∀ e : RestaurantSearchErrorHandler.JsError,
      (RestaurantSearchErrorHandler.classifyError e).retryable = true ↔
        ((RestaurantSearchErrorHandler.classifyError e).type =
            RestaurantSearchErrorHandler.ErrorKind.network ∨
         (RestaurantSearchErrorHandler.classifyError e).type =
            RestaurantSearchErrorHandler.ErrorKind.timeout ∨
         (RestaurantSearchErrorHandler.classifyError e).type =
            RestaurantSearchErrorHandler.ErrorKind.unknown)) ∧
    (∀ (e : RestaurantSearchErrorHandler.JsError)
      (ctx : RestaurantSearchErrorHandler.ErrorContext)
      (opts : RestaurantSearchErrorHandler.ErrorRecoveryOptions)
      (st : RestaurantSearchErrorHandler.ErrMap) (now : ℕ),
      (RestaurantSearchErrorHandler.handleSearchError e ctx opts st now).1.shouldRetry =
          true ↔
        ((RestaurantSearchErrorHandler.classifyError e).retryable = true ∧
         ctx.attempt < opts.maxRetries ∧
         RestaurantSearchErrorHandler.isErrorRateExceeded
           (RestaurantSearchErrorHandler.mkErrorKey ctx now)
           (RestaurantSearchErrorHandler.trackError
             (RestaurantSearchErrorHandler.mkErrorKey ctx now) now st) = false)) := by
  constructor
  · intro e
    simp only [RestaurantSearchErrorHandler.classifyError]
    split_ifs <;> simp
  · intro e ctx opts st now
    simp only [RestaurantSearchErrorHandler.handleSearchError]
    simp [Bool.and_eq_true, Bool.not_eq_true', decide_eq_true_eq, and_assoc]

/-! ### C10: fallback is always available; the 503 branch is dead -/

/-- C10.  Every classification sets `fallbackAvailable = true`; with
fallback enabled, `handleSearchError` never returns the `none` strategy;
consequently the orchestrator (which hard-codes `enableFallback: true`)
can never reach its 503 "no fallback available" response. -/
theorem C10_fallback_always_available :
    (∀ e : RestaurantSearchErrorHandler.JsError,
      (RestaurantSearchErrorHandler.classifyError e).fallbackAvailable = true) ∧
    (∀ (e : RestaurantSearchErrorHandler.JsError)
      (ctx : RestaurantSearchErrorHandler.ErrorContext)
      (opts : RestaurantSearchErrorHandler.ErrorRecoveryOptions)
      (st : RestaurantSearchErrorHandler.ErrMap) (now : ℕ),
      opts.enableFallback = true →
      (RestaurantSearchErrorHandler.handleSearchError e ctx opts st now).1.fallbackStrategy ≠
        RestaurantSearchErrorHandler.FallbackStrategy.none) ∧
    (∀ (dist : ℚ → ℚ → ℚ → ℚ → ℚ) (urlOk : String → Bool)
      (tS : ℕ → SearchResultParser.TransformSamples)
      (fS : ℕ → RestaurantSearchErrorHandler.FallbackSamples)
      (req : SearchApi.PostRequest) (outcome : SearchApi.ProviderOutcome)
      (cache : SearchCache.State SearchApi.CachePayload)
      (errSt : RestaurantSearchErrorHandler.ErrMap) (now : ℕ),
      (SearchApi.postSearch dist urlOk tS fS req outcome cache errSt
        now).1.isServiceUnavailable = false) := by
  have hfa : ∀ e : RestaurantSearchErrorHandler.JsError,
      (RestaurantSearchErrorHandler.classifyError e).fallbackAvailable = true := by
    intro e
    simp only [RestaurantSearchErrorHandler.classifyError]
    split_ifs <;> rfl
  have hsel : ∀ (err : RestaurantSearchErrorHandler.SearchErrorM)
      (ctx : RestaurantSearchErrorHandler.ErrorContext),
      RestaurantSearchErrorHandler.selectFallbackStrategy err ctx ≠
        RestaurantSearchErrorHandler.FallbackStrategy.none := by
    intro err ctx
    simp only [RestaurantSearchErrorHandler.selectFallbackStrategy]
    split_ifs <;> simp
  have hp2 : ∀ (e : RestaurantSearchErrorHandler.JsError)
      (ctx : RestaurantSearchErrorHandler.ErrorContext)
      (opts : RestaurantSearchErrorHandler.ErrorRecoveryOptions)
      (st : RestaurantSearchErrorHandler.ErrMap) (now : ℕ),
      opts.enableFallback = true →
      (RestaurantSearchErrorHandler.handleSearchError e ctx opts st now).1.fallbackStrategy ≠
        RestaurantSearchErrorHandler.FallbackStrategy.none := by
    intro e ctx opts st now hen
    simp only [RestaurantSearchErrorHandler.handleSearchError, hen, hfa e,
      Bool.and_self, if_true]
    exact hsel _ _
  refine ⟨hfa, hp2, ?_⟩
  intro dist urlOk tS fS req outcome cache errSt now
  cases hl : req.location with
  | none => simp [SearchApi.postSearch, hl, SearchApi.PostResult.isServiceUnavailable]
  | some loc =>
    simp only [SearchApi.postSearch, hl]
    by_cases h0 : (loc.latitude == 0 && loc.longitude == 0) = true
    · rw [if_pos h0]
      rfl
    · rw [if_neg h0]
      cases hg : (SearchCache.getOp now
          (SearchCache.generateCacheKey (SearchApi.reqKeyParams req loc)) cache).1 with
      | some payload => simp [hg, SearchApi.PostResult.isServiceUnavailable]
      | none =>
        simp only [hg]
        cases outcome with
        | success rs md => simp [SearchApi.PostResult.isServiceUnavailable]
        | failure e =>
          have hne := hp2 e ⟨req.query.getD "", loc, 0⟩
            ⟨true, 1, 1000, RestaurantSearchErrorHandler.Quality.medium⟩ errSt now rfl
          dsimp only
          split
          · simp [SearchApi.PostResult.isServiceUnavailable]
          · exact absurd hne (by assumption)

-- Witness for C10: a concrete rate-limit-shaped error with fallback
-- enabled yields a non-`none` strategy.
theorem C10_fallback_always_available_witness :
    (RestaurantSearchErrorHandler.classifyError
      { message := some "rate limit exceeded" }).fallbackAvailable = true ∧
    (RestaurantSearchErrorHandler.handleSearchError
      { message := some "rate limit exceeded" }
      ⟨"sushi", loc0, 0⟩
      ⟨true, 2, 1000, RestaurantSearchErrorHandler.Quality.medium⟩ [] 0).1.fallbackStrategy ≠
      RestaurantSearchErrorHandler.FallbackStrategy.none :=
  ⟨C10_fallback_always_available.1 { message := some "rate limit exceeded" },
   C10_fallback_always_available.2.1 { message := some "rate limit exceeded" }
     ⟨"sushi", loc0, 0⟩
     ⟨true, 2, 1000, RestaurantSearchErrorHandler.Quality.medium⟩ [] 0 rfl⟩

/-! ### C9: fallback results are never written into the cache -/

/-- C9.  Frame property of the orchestrator: whenever the route answers
with `usedFallback = true`, it performs no cache write — the cache state
after the request is exactly the state left by the initial `get` of the
request's key (access bookkeeping and lazy expiry only). -/
theorem C9_fallback_never_cached (dist : ℚ → ℚ → ℚ → ℚ → ℚ) (urlOk : String → Bool)
    (tS : ℕ → SearchResultParser.TransformSamples)
    (fS : ℕ → RestaurantSearchErrorHandler.FallbackSamples)
    (req : SearchApi.PostRequest) (outcome : SearchApi.ProviderOutcome)
    (cache : SearchCache.State SearchApi.CachePayload)
    (errSt : RestaurantSearchErrorHandler.ErrMap) (now : ℕ) (loc : LocationData)
    (hloc : req.location = some loc)
    (rests : List Restaurant) (cached : Bool)
    (hres : (SearchApi.postSearch dist urlOk tS fS req outcome cache errSt now).1 =
      SearchApi.PostResult.ok rests true cached) :
    (SearchApi.postSearch dist urlOk tS fS req outcome cache errSt now).2.1 =
      (SearchCache.getOp now
        (SearchCache.generateCacheKey (SearchApi.reqKeyParams req loc)) cache).2 := by
  simp only [SearchApi.postSearch, hloc] at hres ⊢
  by_cases h0 : (loc.latitude == 0 && loc.longitude == 0) = true
  · rw [if_pos h0] at hres
    simp at hres
  · rw [if_neg h0] at hres ⊢
    cases hg : (SearchCache.getOp now
        (SearchCache.generateCacheKey (SearchApi.reqKeyParams req loc)) cache).1 with
    | some payload =>
      simp only [hg] at hres ⊢
    | none =>
      simp only [hg] at hres ⊢
      cases outcome with
      | success rs md =>
        dsimp only at hres
        simp only [SearchApi.PostResult.ok.injEq] at hres
        exact absurd hres.2.1 Bool.false_ne_true
      | failure e =>
        dsimp only at hres ⊢
        split at hres
        · dsimp only at hres ⊢
          rw [if_pos (by assumption)]
          dsimp only
          rw [if_neg]
          simp
        · simp at hres

/-- Concrete location for the C9 scenario. -/
def c9loc : LocationData := ⟨1, 2, none, some "Testville", none, none, none⟩

/-- Concrete request for the C9 scenario. -/
def c9req : SearchApi.PostRequest := { query := some "sushi", location := some c9loc }

/-- A rate-limit-shaped provider error. -/
def c9err : RestaurantSearchErrorHandler.JsError := { message := some "rate limit exceeded" }

/-- Empty cache for the C9 scenario. -/
def c9cache : SearchCache.State SearchApi.CachePayload :=
  SearchCache.mkState SearchApi.CachePayload none none none

/-- The concrete C9 run: provider fails with a rate-limit error on an
empty cache, so the route serves fallback data. -/
def c9run : SearchApi.PostResult × SearchCache.State SearchApi.CachePayload ×
    RestaurantSearchErrorHandler.ErrMap :=
  SearchApi.postSearch dist0 urlOk0 (fun _ => {}) (fun _ => {}) c9req
    (SearchApi.ProviderOutcome.failure c9err) c9cache [] 777

/-- The restaurants of an `ok` result. -/
def SearchApi.PostResult.restaurantsOf : SearchApi.PostResult → List Restaurant
  | .ok r _ _ => r
  | _ => []

-- Witness for C9: on the concrete fallback-serving run, the cache state
-- afterwards equals the post-`get` state (no write happened).
unseal Rat.mul Rat.add Rat.sub Rat.inv Rat.ofScientific in
theorem C9_fallback_never_cached_witness :
    (SearchApi.postSearch dist0 urlOk0 (fun _ => {}) (fun _ => {}) c9req
      (SearchApi.ProviderOutcome.failure c9err) c9cache [] 777).2.1 =
    (SearchCache.getOp 777
      (SearchCache.generateCacheKey (SearchApi.reqKeyParams c9req c9loc)) c9cache).2 :=
  C9_fallback_never_cached dist0 urlOk0 (fun _ => {}) (fun _ => {}) c9req
    (SearchApi.ProviderOutcome.failure c9err) c9cache [] 777 c9loc rfl
    (SearchApi.PostResult.restaurantsOf c9run.1) false (by decide)
